import Mathlib

/-!
Shallow embedding of the multi-agent product recommendation engine
(product search fusion, review analysis, price analysis, buy-plan tools,
and the orchestrator), together with theorems settling the specified
properties against that embedding.

Conventions of the embedding:
* Python floats are modelled by exact rationals (`ℚ`); `round(x, 2)` is
  modelled by `round2` (round half to even, Python's tie-breaking rule).
* Python dicts used as keyed maps are modelled by insertion-ordered
  association lists (`List (ℕ × α)`) with `dlookup` / `dictSet`.
* Python's stable `sorted` is modelled by the stable insertion sort
  `sortBy`; for a total transitive comparison the result of any stable
  sort is unique, so this coincides with the source semantics.
* Free-text renderings of numbers inside human-readable sentences
  abbreviate Python's locale formatting (thousands separators are elided);
  no theorem below inspects those sentences.
-/

namespace ProductRec

/-- Round a rational to the nearest integer, rounding exact halves to the
even neighbour (Python's `round` tie-breaking rule). -/
def rhe (q : ℚ) : ℤ :=
  if q - (⌊q⌋ : ℚ) = 1/2 then (if ⌊q⌋ % 2 = 0 then ⌊q⌋ else ⌊q⌋ + 1)
  else ⌊q + 1/2⌋

/-- Model of Python's `round(x, 2)` on exact rationals. -/
def round2 (x : ℚ) : ℚ := (rhe (100 * x) : ℚ) / 100

/-- First-match lookup in an insertion-ordered association list, the model
of `d.get(k)` on a Python dict. -/
def dlookup {α : Type} (k : ℕ) : List (ℕ × α) → Option α
  | [] => none
  | (a, b) :: es => if a = k then some b else dlookup k es

/-- Model of `d[k] = v` on a Python dict: replace in place if the key is
present, otherwise append at the end (insertion order preserved). -/
def dictSet {α : Type} (m : List (ℕ × α)) (k : ℕ) (v : α) : List (ℕ × α) :=
  if (m.map Prod.fst).contains k then
    m.map (fun e => if e.1 = k then (k, v) else e)
  else m ++ [(k, v)]

/-- Insert an element into a sorted list, keeping it before the first
element `y` with `le x y`. -/
def insertBy {α : Type} (le : α → α → Bool) (x : α) : List α → List α
  | [] => [x]
  | y :: ys => if le x y then x :: y :: ys else y :: insertBy le x ys

/-- Stable insertion sort; models Python's stable `sorted` for a total
transitive comparison. -/
def sortBy {α : Type} (le : α → α → Bool) : List α → List α
  | [] => []
  | x :: xs => insertBy le x (sortBy le xs)

/-- Model of Python's `min` over a non-empty list (0 as junk value on `[]`,
where the source would raise). -/
def listMin (l : List ℚ) : ℚ :=
  match l with
  | [] => 0
  | x :: xs => xs.foldl min x

/-- Model of Python's `max` over a non-empty list (0 as junk value on `[]`,
where the source would raise). -/
def listMax (l : List ℚ) : ℚ :=
  match l with
  | [] => 0
  | x :: xs => xs.foldl max x

/-- Substring test, modelling Python's `sub in s`. -/
def containsSub (s sub : String) : Bool := (s.splitOn sub).length ≥ 2

/-! ### Buy-plan tools (src/tools/buyplan_tools.py) -/

/-- Standard annual interest rates per tenure
(`interest_rates` in `calculate_emi_plans`). -/
def interestRates : List (ℕ × ℚ) :=
  [(3, 12), (6, 13), (9, 14), (12, 15), (18, 16), (24, 17)]

/-- One EMI plan record as built by `calculate_emi_plans` /
`calculate_no_cost_emi`. -/
structure EmiPlan where
  tenureMonths : ℕ
  emiPerMonth : ℚ
  totalAmount : ℚ
  totalInterest : ℚ
  interestRateAnnual : ℚ
  processingFee : ℚ
  planType : String
  totalPayable : Option ℚ
deriving Repr, DecidableEq

/-- Default tenure list of `calculate_emi_plans`. -/
def stdTenures : List ℕ := [3, 6, 9, 12, 18, 24]

/-- Default tenure list of `calculate_no_cost_emi`. -/
def noCostTenures : List ℕ := [3, 6, 9, 12]

/-- The raw (unrounded) annuity EMI of `calculate_emi_plans`:
`P * r * (1+r)^n / ((1+r)^n - 1)` with `r = annual_rate / 12 / 100`. -/
def emiRaw (price : ℚ) (months : ℕ) : ℚ :=
  let annualRate := (dlookup months interestRates).getD 15
  let monthlyRate := annualRate / 12 / 100
  if 0 < monthlyRate then
    (price * monthlyRate * (1 + monthlyRate) ^ months) /
      ((1 + monthlyRate) ^ months - 1)
  else price / (months : ℚ)

/-- Embedding of `calculate_emi_plans`. -/
def calculateEmiPlans (price : ℚ) (tenures : List ℕ) : List EmiPlan :=
  tenures.map (fun (months : ℕ) =>
    let annualRate := (dlookup months interestRates).getD 15
    let emiAmount := emiRaw price months
    let totalAmount := emiAmount * (months : ℚ)
    { tenureMonths := months
      emiPerMonth := round2 emiAmount
      totalAmount := round2 totalAmount
      totalInterest := round2 (totalAmount - price)
      interestRateAnnual := annualRate
      processingFee := 199
      planType := "regular_emi"
      totalPayable := none })

/-- Embedding of `calculate_no_cost_emi`. -/
def calculateNoCostEmi (price : ℚ) (tenures : List ℕ) : List EmiPlan :=
  tenures.map (fun (months : ℕ) =>
    let emiAmount := price / (months : ℚ)
    { tenureMonths := months
      emiPerMonth := round2 emiAmount
      totalAmount := round2 price
      totalInterest := 0
      interestRateAnnual := 0
      processingFee := 199
      planType := "no_cost_emi"
      totalPayable := some (round2 (price + 199)) })

/-! ### Review tools and review analyzer
(src/tools/review_tools.py, src/agents/review_analyzer_agent.py) -/

/-- One review row as fetched by `review_tools.get_reviews`. -/
structure Review where
  rating : ℕ
  text : String
  verified : Bool
  helpfulCount : ℕ
deriving Repr, DecidableEq

/-- Statistics dict of `review_tools.get_review_statistics`; the rating
distribution is the insertion-ordered dict keyed by star value. -/
structure ReviewStats where
  totalReviews : ℕ
  averageRating : ℚ
  ratingDistribution : List (ℕ × ℕ)
  verifiedPurchases : ℕ
deriving Repr, DecidableEq

/-- The distribution dict: initialised to `{1:0, ..., 5:0}` then one
increment per review at its rating key. -/
def buildDistribution (reviews : List Review) : List (ℕ × ℕ) :=
  reviews.foldl
    (fun m r => dictSet m r.rating ((dlookup r.rating m).getD 0 + 1))
    [(1, 0), (2, 0), (3, 0), (4, 0), (5, 0)]

/-- Embedding of `review_tools.get_review_statistics`. -/
def getReviewStatistics (reviews : List Review) : ReviewStats :=
  if reviews = [] then
    { totalReviews := 0, averageRating := 0, ratingDistribution := [],
      verifiedPurchases := 0 }
  else
    { totalReviews := reviews.length
      averageRating :=
        round2 ((reviews.map (fun r => (r.rating : ℚ))).sum / (reviews.length : ℚ))
      ratingDistribution := buildDistribution reviews
      verifiedPurchases := (reviews.filter (fun r => r.verified)).length }

/-- Embedding of `ReviewAnalyzerAgent._calculate_trust_score`. -/
def calculateTrustScore (stats : ReviewStats) : ℚ :=
  let score : ℚ := 1/2
  let verifiedRatio : ℚ := (stats.verifiedPurchases : ℚ) / (stats.totalReviews : ℚ)
  let score := score + verifiedRatio * (3/10)
  let fiveStarRatio : ℚ :=
    (((dlookup 5 stats.ratingDistribution).getD 0 : ℕ) : ℚ) / (stats.totalReviews : ℚ)
  let oneStarRatio : ℚ :=
    (((dlookup 1 stats.ratingDistribution).getD 0 : ℕ) : ℚ) / (stats.totalReviews : ℚ)
  let score :=
    if fiveStarRatio < 7/10 ∧ oneStarRatio < 3/10 then score + 1/5
    else if fiveStarRatio > 9/10 then score - 1/10
    else score
  let score :=
    if stats.totalReviews > 50 then score + 1/10
    else if stats.totalReviews > 20 then score + 1/20
    else score
  min (max score 0) 1

/-- Positive/negative theme lists extracted by `review_tools.extract_themes`
(keyword windows over review text; their content is irrelevant to every
claim, so they enter the analyzer as data). -/
structure Themes where
  positive : List String
  negative : List String
deriving Repr, DecidableEq

/-- Outcome of the analyzer's LLM call: a completed generation, an
`asyncio.TimeoutError`, or any other raised exception. -/
inductive LLMOutcome where
  | ok (text : String)
  | timeout
  | failed (msg : String)
deriving Repr, DecidableEq

/-- The review-analysis dict returned (and possibly cached) by
`ReviewAnalyzerAgent.analyze_reviews`; absent dict keys are `none`. -/
structure ReviewResultR where
  success : Bool
  message : Option String
  error : Option String
  statistics : Option ReviewStats
  sentiment : Option String
  pros : List String
  cons : List String
  summary : Option String
  trustScore : Option ℚ
  fullAnalysis : Option String
deriving Repr, DecidableEq

/-- The empty dict `{}` used when a product has no review result. -/
def emptyReviewResult : ReviewResultR :=
  { success := false, message := none, error := none, statistics := none,
    sentiment := none, pros := [], cons := [], summary := none,
    trustScore := none, fullAnalysis := none }

/-- Observable outcome of one `analyze_reviews` call: the returned dict,
whether the LLM was invoked, and what (if anything) was written to the
review cache. -/
structure ReviewAnalyzerOut where
  result : ReviewResultR
  llmCalled : Bool
  cacheWrite : Option ReviewResultR
deriving Repr, DecidableEq

/-- Embedding of `ReviewAnalyzerAgent.analyze_reviews`.  `cached` is the
review-cache entry for the product (if fresh), `reviews` the rows fetched
from the catalog, `themes` the output of `extract_themes`, `llm` the
outcome of the Ollama call, and `parseResp` abstracts
`_parse_ai_response` (a section parser over free LLM text that no claim
constrains). -/
def analyzeReviews (cached : Option ReviewResultR) (reviews : List Review)
    (themes : Themes) (llm : LLMOutcome)
    (parseResp : String → String × List String × List String × String) :
    ReviewAnalyzerOut :=
  match cached with
  | some r => { result := r, llmCalled := false, cacheWrite := none }
  | none =>
    let stats := getReviewStatistics reviews
    if reviews = [] then
      { result :=
          { emptyReviewResult with
            success := false
            message := some "No reviews found for this product" }
        llmCalled := false
        cacheWrite := none }
    else
      match llm with
      | .ok text =>
        let parsed := parseResp text
        let trust := calculateTrustScore stats
        let result : ReviewResultR :=
          { success := true, message := none, error := none,
            statistics := some stats, sentiment := some parsed.1,
            pros := parsed.2.1, cons := parsed.2.2.1,
            summary := some parsed.2.2.2, trustScore := some trust,
            fullAnalysis := some text }
        { result := result, llmCalled := true, cacheWrite := some result }
      | .timeout =>
        let trust := calculateTrustScore stats
        let avgRating := stats.averageRating
        let sentiment :=
          if avgRating ≥ 4 then "Positive"
          else if avgRating ≥ 3 then "Neutral" else "Negative"
        let pros :=
          if themes.positive ≠ [] then themes.positive.take 3
          else ["Overall positive feedback"]
        let cons :=
          if themes.negative ≠ [] then themes.negative.take 2
          else ["Some concerns noted"]
        let summ := "Product rated " ++ toString avgRating ++ "/5 by "
          ++ toString stats.totalReviews ++ " customers"
        let analysisText := sentiment ++ " sentiment based on "
          ++ toString stats.totalReviews ++ " reviews"
        let result : ReviewResultR :=
          { success := true, message := none, error := none,
            statistics := some stats, sentiment := some sentiment,
            pros := pros, cons := cons, summary := some summ,
            trustScore := some trust, fullAnalysis := some analysisText }
        { result := result, llmCalled := true, cacheWrite := some result }
      | .failed msg =>
        { result := { emptyReviewResult with success := false, error := some msg }
          llmCalled := true
          cacheWrite := none }

/-! ### Price tools (src/tools/price_tools.py) -/

/-- One price-history entry as returned by `get_price_history`
(newest first; `date` is the ISO timestamp string). -/
structure HistoryEntry where
  price : ℚ
  date : String
deriving Repr, DecidableEq

/-- Chart payload: the date labels and price series of the frontend chart
(the cosmetic Chart.js styling fields of the source dict are elided). -/
structure ChartData where
  labels : List String
  data : List ℚ
deriving Repr, DecidableEq

/-- Embedding of `PriceTools._prepare_chart_data` reduced to its data
content: history re-sorted oldest-first, `YYYY-MM-DD` labels. -/
def prepareChartData (history : List HistoryEntry) : ChartData :=
  let sortedHistory := sortBy (fun a b => decide (a.date ≤ b.date)) history
  { labels := sortedHistory.map (fun h => h.date.take 10)
    data := sortedHistory.map (fun h => h.price) }

/-- The trend-analysis dict of `PriceTools.calculate_price_trend`; absent
dict keys are `none`. -/
structure TrendResult where
  currentPrice : Option ℚ
  averagePrice : Option ℚ
  minPrice : Option ℚ
  maxPrice : Option ℚ
  trend : String
  priceChange : Option ℚ
  priceChangePct : Option ℚ
  recommendation : String
  dataPoints : Option ℕ
  chartData : Option ChartData
  error : Option String
deriving Repr, DecidableEq

/-- Embedding of `PriceTools.calculate_price_trend`.  `history` is the
30-day price history (newest first); `currentPrice` is the price read from
the product row (`0` when the product row is absent). -/
def calculatePriceTrend (history : List HistoryEntry) (currentPrice : ℚ) :
    TrendResult :=
  if history = [] then
    { currentPrice := none, averagePrice := none, minPrice := none,
      maxPrice := none, trend := "unknown", priceChange := some 0,
      priceChangePct := none, recommendation := "wait", dataPoints := none,
      chartData := none, error := some "No price history available" }
  else
    let prices := history.map (fun h => h.price)
    let avgPrice := prices.sum / (prices.length : ℚ)
    let minPrice := listMin prices
    let maxPrice := listMax prices
    let trend :=
      if 14 ≤ prices.length then
        let recentAvg := (prices.take 7).sum / ((min 7 prices.length : ℕ) : ℚ)
        let olderAvg := ((prices.drop 7).take 7).sum /
          ((max 1 (min 7 ((prices.drop 7).take 7).length) : ℕ) : ℚ)
        if recentAvg < olderAvg * (19/20) then "decreasing"
        else if recentAvg > olderAvg * (21/20) then "increasing"
        else "stable"
      else "insufficient_data"
    let priceChangePct := (currentPrice - maxPrice) / maxPrice * 100
    let recommendation :=
      if currentPrice ≤ minPrice * (21/20) then "buy_now"
      else if trend = "decreasing" then "wait"
      else if avgPrice ≤ currentPrice then "wait"
      else "good_time"
    { currentPrice := some currentPrice
      averagePrice := some (round2 avgPrice)
      minPrice := some minPrice
      maxPrice := some maxPrice
      trend := trend
      priceChange := none
      priceChangePct := some (round2 priceChangePct)
      recommendation := recommendation
      dataPoints := some history.length
      chartData := some (prepareChartData history)
      error := none }

/-! ### Hybrid search fusion (src/agents/product_search_agent.py) -/

/-- One semantic-search hit (`EmbeddingGenerator.search_similar_products`):
a product ID with its `similarity_score` entry.  The score is optional to
mirror `result.get('similarity_score', 0.5)` in `_combine_and_rank`; the
vector index always attaches one. -/
structure SemEntry where
  productId : ℕ
  similarityScore : Option ℚ
deriving Repr, DecidableEq

/-- Phase 1 of `ProductSearchAgent._combine_and_rank`: insert every
semantic hit into the combined dict with `final_score = similarity * 0.7`. -/
def combineSemantic (semanticResults : List SemEntry) : List (ℕ × ℚ) :=
  semanticResults.foldl
    (fun m r => dictSet m r.productId ((r.similarityScore.getD (1/2)) * (7/10)))
    []

/-- Phase 2 of `_combine_and_rank`: each traditional hit boosts an existing
entry by `+0.3` or enters with score `0.3`. -/
def combineTraditional (m0 : List (ℕ × ℚ)) (traditionalResults : List ℕ) :
    List (ℕ × ℚ) :=
  traditionalResults.foldl
    (fun m pid =>
      match dlookup pid m with
      | some v => dictSet m pid (v + 3/10)
      | none => dictSet m pid (3/10))
    m0

/-- Embedding of `ProductSearchAgent._combine_and_rank`: fuse the two legs,
sort by `final_score` descending (stable), truncate to `limit`. -/
def combineAndRank (semanticResults : List SemEntry)
    (traditionalResults : List ℕ) (limit : ℕ) : List (ℕ × ℚ) :=
  (sortBy (fun a b => decide (b.2 ≤ a.2))
    (combineTraditional (combineSemantic semanticResults) traditionalResults)).take
    limit

/-- Fused score as the specification words it: union by product ID; `0.7 ×
semantic_score` for the semantic leg, `+0.3` for the predicate leg.
Written from the spec, for comparison with `combineAndRank`. -/
def fusedScoreSpec (semanticResults : List SemEntry)
    (traditionalResults : List ℕ) (pid : ℕ) : Option ℚ :=
  match semanticResults.find? (fun r => r.productId = pid),
      traditionalResults.contains pid with
  | some r, true => some ((7/10) * (r.similarityScore.getD (1/2)) + 3/10)
  | some r, false => some ((7/10) * (r.similarityScore.getD (1/2)))
  | none, true => some (3/10)
  | none, false => none

/-! ### Card offers and payment options (src/tools/buyplan_tools.py) -/

/-- One `card_offers` table row (src/database/models.py). -/
structure CardOfferRow where
  id : ℕ
  bankName : String
  cardType : String
  offerType : String
  discountAmount : Option ℚ
  discountPercentage : Option ℚ
  cashbackAmount : Option ℚ
  minTransactionAmount : Option ℚ
  emiTenure : Option String
  isNoCostEmi : Bool
  offerDescription : String
  isActive : Bool
deriving Repr, DecidableEq

/-- One `products` table row (fields the buy-plan path reads). -/
structure ProductRow where
  id : ℕ
  name : String
  price : ℚ
  mrp : Option ℚ
  rating : ℚ
  reviewCount : ℕ
  inStock : Bool
deriving Repr, DecidableEq

/-- Python truthiness of an optional float: `None` and `0.0` are falsy. -/
def truthyQ (x : Option ℚ) : Option ℚ :=
  match x with
  | some v => if v = 0 then none else some v
  | none => none

/-- Model of `float(product.mrp) if product.mrp else float(product.price)`. -/
def mrpOrPrice (p : ProductRow) : ℚ :=
  match truthyQ p.mrp with
  | some m => m
  | none => p.price

/-- The formatted offer dict built by `get_card_offers`; note the source
always leaves `emi_amount` as `None` (the comment there says it will be
calculated if needed, but nothing ever does). -/
structure OfferData where
  id : ℕ
  bankName : String
  offerType : String
  discountPercent : Option ℚ
  discountAmount : Option ℚ
  cashbackAmount : Option ℚ
  emiMonths : Option ℕ
  emiAmount : Option ℚ
  minPurchase : Option ℚ
  maxDiscount : Option ℚ
  terms : String
deriving Repr, DecidableEq

/-- Embedding of `get_card_offers`: empty when the product row is absent,
otherwise every offer row formatted (no `is_active` filtering in the
source). -/
def getCardOffers (product : Option ProductRow) (offers : List CardOfferRow) :
    List OfferData :=
  match product with
  | none => []
  | some _ =>
    offers.map (fun o =>
      { id := o.id
        bankName := o.bankName
        offerType := o.offerType
        discountPercent := truthyQ o.discountPercentage
        discountAmount := truthyQ o.discountAmount
        cashbackAmount := truthyQ o.cashbackAmount
        emiMonths :=
          match o.emiTenure with
          | some s =>
            if s.length ≠ 0 ∧ s.toList.all Char.isDigit then s.toNat? else none
          | none => none
        emiAmount := none
        minPurchase := truthyQ o.minTransactionAmount
        maxDiscount := none
        terms := o.offerDescription })

/-- One payment-option dict of `calculate_total_savings`; keys not set by a
given branch are `none`. -/
structure PaymentOption where
  optionName : String
  paymentMethod : String
  finalPrice : Option ℚ
  discountFromMrp : ℚ
  additionalSavings : Option ℚ
  totalSavings : ℚ
  savingsPercent : ℚ
  paymentType : String
  cashbackAmount : Option ℚ
  effectivePrice : Option ℚ
  cashbackCreditDays : Option ℕ
  emiPerMonth : Option ℚ
  tenureMonths : Option ℕ
  totalAmount : Option ℚ
  processingFee : Option ℚ
  totalInterest : Option ℚ
  offerDetails : Option String
deriving Repr, DecidableEq

/-- The payment options contributed by one formatted card offer in
`calculate_total_savings` (zero or one per offer). -/
def offerOptions (price mrp baseDiscount : ℚ) (o : OfferData) :
    List PaymentOption :=
  if o.offerType = "instant_discount" then
    let additionalSavings :=
      match o.discountAmount with
      | some a => a
      | none =>
        match o.discountPercent with
        | some pct =>
          let s := price * (pct / 100)
          match o.maxDiscount with
          | some cap => min s cap
          | none => s
        | none => 0
    let finalPrice := price - additionalSavings
    [{ optionName := o.bankName ++ " Instant Discount"
       paymentMethod := o.bankName ++ " Card"
       finalPrice := some (round2 finalPrice)
       discountFromMrp := baseDiscount
       additionalSavings := some (round2 additionalSavings)
       totalSavings := round2 (baseDiscount + additionalSavings)
       savingsPercent :=
         if mrp ≠ 0 then round2 ((baseDiscount + additionalSavings) / mrp * 100)
         else 0
       paymentType := "one_time"
       cashbackAmount := none, effectivePrice := none
       cashbackCreditDays := none, emiPerMonth := none, tenureMonths := none
       totalAmount := none, processingFee := none, totalInterest := none
       offerDetails := some o.terms }]
  else if o.offerType = "cashback" then
    let cashback := (o.cashbackAmount).getD 0
    [{ optionName := o.bankName ++ " Cashback"
       paymentMethod := o.bankName ++ " Card"
       finalPrice := some price
       discountFromMrp := baseDiscount
       additionalSavings := some (round2 cashback)
       totalSavings := round2 (baseDiscount + cashback)
       savingsPercent :=
         if mrp ≠ 0 then round2 ((baseDiscount + cashback) / mrp * 100) else 0
       paymentType := "cashback"
       cashbackAmount := some (round2 cashback)
       effectivePrice := some (round2 (price - cashback))
       cashbackCreditDays := some 90
       emiPerMonth := none, tenureMonths := none
       totalAmount := none, processingFee := none, totalInterest := none
       offerDetails := some o.terms }]
  else if o.offerType = "no_cost_emi" then
    match o.emiMonths, o.emiAmount with
    | some m, some a =>
      if m ≠ 0 ∧ a ≠ 0 then
        [{ optionName := o.bankName ++ " No Cost EMI"
           paymentMethod := o.bankName ++ " Card"
           finalPrice := none
           discountFromMrp := baseDiscount
           additionalSavings := none
           totalSavings := baseDiscount
           savingsPercent :=
             if mrp ≠ 0 then round2 (baseDiscount / mrp * 100) else 0
           paymentType := "emi"
           cashbackAmount := none, effectivePrice := none
           cashbackCreditDays := none
           emiPerMonth := some (round2 a)
           tenureMonths := some m
           totalAmount := some (round2 (a * (m : ℚ)))
           processingFee := some 199
           totalInterest := some 0
           offerDetails := some o.terms }]
      else []
    | _, _ => []
  else []

/-- Embedding of `calculate_total_savings`: the baseline full-price option,
one option per applicable offer, sorted by `total_savings` descending. -/
def calculateTotalSavings (price mrp : ℚ) (offers : List OfferData) :
    List PaymentOption :=
  let baseDiscount := if mrp ≠ 0 then mrp - price else 0
  let fullPrice : PaymentOption :=
    { optionName := "Full Price Payment"
      paymentMethod := "Any Card/Cash"
      finalPrice := some price
      discountFromMrp := baseDiscount
      additionalSavings := some 0
      totalSavings := baseDiscount
      savingsPercent := if mrp ≠ 0 then round2 (baseDiscount / mrp * 100) else 0
      paymentType := "one_time"
      cashbackAmount := none, effectivePrice := none, cashbackCreditDays := none
      emiPerMonth := none, tenureMonths := none, totalAmount := none
      processingFee := none, totalInterest := none, offerDetails := none }
  sortBy (fun a b => decide (b.totalSavings ≤ a.totalSavings))
    (fullPrice :: offers.foldr (fun o acc => offerOptions price mrp baseDiscount o ++ acc) [])

/-- The three best-option selections of `compare_payment_options`. -/
structure BestRecs where
  bestInstantSavings : Option PaymentOption
  bestCashback : Option PaymentOption
  bestEmi : Option PaymentOption
deriving Repr, DecidableEq

/-- One iteration of the selection loop at the end of
`compare_payment_options`. -/
def pickBestsStep (bests : BestRecs) (option : PaymentOption) : BestRecs :=
  if option.paymentType = "one_time"
      ∧ containsSub option.optionName "Instant Discount" then
    { bests with
      bestInstantSavings :=
        match bests.bestInstantSavings with
        | none => some option
        | some b =>
          if b.totalSavings < option.totalSavings then some option
          else some b }
  else if option.paymentType = "cashback" then
    { bests with
      bestCashback :=
        match bests.bestCashback with
        | none => some option
        | some b =>
          if b.totalSavings < option.totalSavings then some option
          else some b }
  else if option.paymentType = "emi" then
    { bests with
      bestEmi :=
        match bests.bestEmi with
        | none => some option
        | some b =>
          if option.emiPerMonth.getD 0 < b.emiPerMonth.getD 0 then
            some option
          else some b }
  else bests

/-- The selection loop at the end of `compare_payment_options`. -/
def pickBests (options : List PaymentOption) : BestRecs :=
  options.foldl pickBestsStep
    { bestInstantSavings := none, bestCashback := none, bestEmi := none }

/-- Result dict of `compare_payment_options`. -/
structure CompareOptionsResult where
  success : Bool
  error : Option String
  productName : String
  productPrice : ℚ
  productMrp : ℚ
  paymentOptions : List PaymentOption
  regularEmiPlans : List EmiPlan
  noCostEmiPlans : List EmiPlan
  recommendations : BestRecs
deriving Repr, DecidableEq

/-- Embedding of `compare_payment_options`. -/
def comparePaymentOptions (product : Option ProductRow)
    (offerRows : List CardOfferRow) : CompareOptionsResult :=
  match product with
  | none =>
    { success := false, error := some "Product not found", productName := "",
      productPrice := 0, productMrp := 0, paymentOptions := [],
      regularEmiPlans := [], noCostEmiPlans := [],
      recommendations :=
        { bestInstantSavings := none, bestCashback := none, bestEmi := none } }
  | some p =>
    let cardOffers := getCardOffers (some p) offerRows
    let regularEmi := calculateEmiPlans p.price stdTenures
    let noCostEmi := calculateNoCostEmi p.price noCostTenures
    let paymentOptions := calculateTotalSavings p.price (mrpOrPrice p) cardOffers
    { success := true, error := none, productName := p.name,
      productPrice := p.price, productMrp := mrpOrPrice p,
      paymentOptions := paymentOptions, regularEmiPlans := regularEmi,
      noCostEmiPlans := noCostEmi, recommendations := pickBests paymentOptions }

/-- The purchase-plan dict returned by
`BuyPlanOptimizerAgent.create_purchase_plan`; its human-readable summary
string is elided (no claim inspects it). -/
structure BuyPlanResultR where
  success : Bool
  error : Option String
  productName : String
  productPrice : ℚ
  productMrp : ℚ
  emiEligible : Bool
  paymentOptions : List PaymentOption
  regularEmiPlans : List EmiPlan
  noCostEmiPlans : List EmiPlan
  bestInstantSavings : Option PaymentOption
  bestCashback : Option PaymentOption
  bestEmi : Option PaymentOption
  aiRecommendation : String
deriving Repr, DecidableEq

/-- Embedding of `BuyPlanOptimizerAgent.create_purchase_plan`;
`aiRec` is the (free-text) Ollama recommendation or its fallback. -/
def createPurchasePlan (product : Option ProductRow)
    (offerRows : List CardOfferRow) (aiRec : String) : BuyPlanResultR :=
  let comparison := comparePaymentOptions product offerRows
  if comparison.success = false then
    { success := false, error := some (comparison.error.getD "Failed to create purchase plan"),
      productName := "", productPrice := 0, productMrp := 0,
      emiEligible := false, paymentOptions := [], regularEmiPlans := [],
      noCostEmiPlans := [], bestInstantSavings := none, bestCashback := none,
      bestEmi := none, aiRecommendation := "" }
  else
    match product with
    | none =>
      { success := false, error := some "Product not found",
        productName := "", productPrice := 0, productMrp := 0,
        emiEligible := false, paymentOptions := [], regularEmiPlans := [],
        noCostEmiPlans := [], bestInstantSavings := none, bestCashback := none,
        bestEmi := none, aiRecommendation := "" }
    | some p =>
      { success := true, error := none, productName := p.name,
        productPrice := p.price, productMrp := mrpOrPrice p,
        emiEligible := decide (p.price ≥ 5000)
        paymentOptions := comparison.paymentOptions
        regularEmiPlans := comparison.regularEmiPlans
        noCostEmiPlans := comparison.noCostEmiPlans
        bestInstantSavings := comparison.recommendations.bestInstantSavings
        bestCashback := comparison.recommendations.bestCashback
        bestEmi := comparison.recommendations.bestEmi
        aiRecommendation := aiRec }

/-! ### Orchestrator (src/agents/orchestrator_agent.py) -/

/-- One product dict as emitted by the search agent's `_enrich_results`
(the fields the orchestrator reads). -/
structure SearchProduct where
  id : ℕ
  name : String
  brand : String
  price : ℚ
  mrp : ℚ
  rating : ℚ
  reviewCount : ℕ
  inStock : Bool
deriving Repr, DecidableEq

/-- The search agent's result dict as seen by the orchestrator. -/
structure SearchResultR where
  success : Bool
  products : List SearchProduct
deriving Repr, DecidableEq

/-- The price-analysis dict of `PriceTrackerAgent.analyze_price` (absent
keys are `none`; a failure dict has `success := false` and everything else
empty). -/
structure PriceResultR where
  success : Bool
  error : Option String
  priceData : Option TrendResult
  history : List HistoryEntry
  aiRecommendation : Option String
  recommendation : Option String
  confidence : Option String
deriving Repr, DecidableEq

/-- The empty dict `{}` used when a product has no price result. -/
def emptyPriceResult : PriceResultR :=
  { success := false, error := none, priceData := none, history := [],
    aiRecommendation := none, recommendation := none, confidence := none }

/-- The 30-day mock chart fabricated in `_enrich_products` for products
without price data: for day offsets 30 down to 1, price = base × (1 +
variation) with `variation = random.uniform(-0.05, 0.05)`.  `rng` supplies
the per-day random draw and `dateLabel` renders the day's date. -/
def mockChart (basePrice : ℚ) (rng : ℕ → ℚ) (dateLabel : ℕ → String) :
    ChartData :=
  let days := (List.range 30).map (fun k => 30 - k)
  { labels := days.map dateLabel
    data := days.map (fun i => round2 (basePrice * (1 + rng i))) }

/-- The product's `price_analysis` dict after `_enrich_products` ran over
it: the underlying price result plus the chart fields and the hoisted
trend fields. -/
structure EnrichedPrice where
  base : PriceResultR
  chartData : Option ChartData
  dataPoints : Option ℕ
  currentPrice : Option ℚ
  averagePrice : Option ℚ
  minPrice : Option ℚ
  maxPrice : Option ℚ
  trend : Option String
  priceChangePct : Option ℚ
deriving Repr, DecidableEq

/-- The chart-selection and field-hoisting logic of `_enrich_products` for
one product. -/
def enrichPrice (product : SearchProduct) (pd : PriceResultR)
    (rng : ℕ → ℚ) (dateLabel : ℕ → String) : EnrichedPrice :=
  let existingChart := pd.priceData.bind (fun t => t.chartData)
  let chartPair : Option ChartData × Option ℕ :=
    if pd.history ≠ [] then
      (some { labels := pd.history.map (fun h => h.date.take 10)
              data := pd.history.map (fun h => h.price) },
       some pd.history.length)
    else if existingChart.isSome then (existingChart, none)
    else if 0 < product.price then
      (some (mockChart product.price rng dateLabel), some 30)
    else (none, none)
  match pd.priceData with
  | some trendData =>
    { base := pd, chartData := chartPair.1, dataPoints := chartPair.2,
      currentPrice := trendData.currentPrice
      averagePrice := trendData.averagePrice
      minPrice := trendData.minPrice
      maxPrice := trendData.maxPrice
      trend := some trendData.trend
      priceChangePct := trendData.priceChangePct }
  | none =>
    { base := pd, chartData := chartPair.1, dataPoints := chartPair.2,
      currentPrice := none, averagePrice := none, minPrice := none,
      maxPrice := none, trend := none, priceChangePct := none }

/-- One enriched product of `_enrich_products`: the search product with its
review result and enriched price analysis attached. -/
structure EnrichedProduct where
  product : SearchProduct
  review : ReviewResultR
  price : EnrichedPrice
deriving Repr, DecidableEq

/-- Embedding of the loop of `_enrich_products`; `i` is the running index,
used to address the per-product stream of random draws. -/
def enrichAux (reviewResults : List (ℕ × ReviewResultR))
    (priceResults : List (ℕ × PriceResultR)) (rng : ℕ → ℕ → ℚ)
    (dateLabel : ℕ → String) : ℕ → List SearchProduct → List EnrichedProduct
  | _, [] => []
  | i, p :: ps =>
    { product := p
      review := (dlookup p.id reviewResults).getD emptyReviewResult
      price := enrichPrice p ((dlookup p.id priceResults).getD emptyPriceResult)
        (rng i) dateLabel }
      :: enrichAux reviewResults priceResults rng dateLabel (i + 1) ps

/-- Embedding of `OrchestratorAgent._enrich_products`. -/
def enrichProducts (products : List SearchProduct)
    (reviewResults : List (ℕ × ReviewResultR))
    (priceResults : List (ℕ × PriceResultR)) (rng : ℕ → ℕ → ℚ)
    (dateLabel : ℕ → String) : List EnrichedProduct :=
  enrichAux reviewResults priceResults rng dateLabel 0 products

/-- Embedding of `_get_rating_badge`. -/
def getRatingBadge (rating : ℚ) : String :=
  if rating ≥ 9/2 then "⭐ Excellent"
  else if rating ≥ 4 then "👍 Very Good"
  else if rating ≥ 7/2 then "✅ Good"
  else if rating ≥ 3 then "⚠️ Average"
  else "❌ Below Average"

/-- Embedding of `_get_sentiment_emoji`. -/
def getSentimentEmoji (sentiment : String) : String :=
  let s := sentiment.toLower
  if containsSub s "positive" then "😊 Positive"
  else if containsSub s "negative" then "😞 Negative"
  else "😐 Neutral"

/-- Embedding of `_get_price_badge`. -/
def getPriceBadge (recommendation : String) : String :=
  let s := recommendation.toLower
  if containsSub s "buy" ∨ containsSub s "now" then "🟢 Buy Now"
  else if containsSub s "good" then "🟡 Good Deal"
  else "🔴 Wait"

/-- The `pricing` section of a formatted product.  The source reads the
missing dict key `discount_pct` (search products carry `discount_percent`),
so `discountPercent` is always the `.get` default 0. -/
structure PricingBlock where
  currentPrice : ℚ
  mrp : ℚ
  discountPercent : ℚ
  youSave : ℚ
  inStock : Bool
deriving Repr, DecidableEq

/-- The `ratings` section of a formatted product. -/
structure RatingsBlock where
  averageRating : ℚ
  totalReviews : ℕ
  ratingBadge : String
deriving Repr, DecidableEq

/-- The `review_analysis` section of a formatted product. -/
structure ReviewBlock where
  available : Bool
  sentiment : String
  sentimentEmoji : String
  trustScore : ℚ
  trustScorePercent : String
  pros : List String
  cons : List String
  summary : String
  topPro : String
  topCon : String
  statistics : Option ReviewStats
  fullAnalysis : String
deriving Repr, DecidableEq

/-- The `price_tracking` section of a formatted product. -/
structure PriceTrackBlock where
  available : Bool
  recommendation : String
  recommendationBadge : String
  currentPrice : ℚ
  averagePrice : ℚ
  lowestPrice : ℚ
  highestPrice : ℚ
  priceTrend : String
  priceChangePercent : ℚ
  aiRecommendation : String
  confidence : String
  chartData : Option ChartData
  historyDays : ℕ
deriving Repr, DecidableEq

/-- The review section builder inside `_format_user_friendly_response`. -/
def mkReviewBlock (review : ReviewResultR) : ReviewBlock :=
  { available := review.success
    sentiment := review.sentiment.getD "N/A"
    sentimentEmoji := getSentimentEmoji (review.sentiment.getD "Neutral")
    trustScore := review.trustScore.getD 0
    trustScorePercent := toString (rhe ((review.trustScore.getD 0) * 100)) ++ "%"
    pros := review.pros
    cons := review.cons
    summary := review.summary.getD ""
    topPro := review.pros.headD "No pros available"
    topCon := review.cons.headD "No cons mentioned"
    statistics := review.statistics
    fullAnalysis := review.fullAnalysis.getD "" }

/-- The price-tracking section builder inside
`_format_user_friendly_response`. -/
def mkPriceBlock (product : SearchProduct) (price : EnrichedPrice) :
    PriceTrackBlock :=
  { available := price.base.success
    recommendation := price.base.recommendation.getD "N/A"
    recommendationBadge := getPriceBadge (price.base.recommendation.getD "wait")
    currentPrice := price.currentPrice.getD product.price
    averagePrice := price.averagePrice.getD product.price
    lowestPrice := price.minPrice.getD product.price
    highestPrice := price.maxPrice.getD product.price
    priceTrend := price.trend.getD "stable"
    priceChangePercent := price.priceChangePct.getD 0
    aiRecommendation := price.base.aiRecommendation.getD ""
    confidence := price.base.confidence.getD "medium"
    chartData := price.chartData
    historyDays := price.dataPoints.getD 0 }

/-- One formatted product of `_format_user_friendly_response`. -/
structure FormattedProduct where
  rank : ℕ
  id : ℕ
  name : String
  brand : String
  pricing : PricingBlock
  ratings : RatingsBlock
  reviewAnalysis : ReviewBlock
  priceTracking : PriceTrackBlock
  original : SearchProduct
deriving Repr, DecidableEq

/-- The per-product body of the formatting loop. -/
def formatProduct (rank : ℕ) (e : EnrichedProduct) : FormattedProduct :=
  { rank := rank
    id := e.product.id
    name := e.product.name
    brand := e.product.brand
    pricing :=
      { currentPrice := e.product.price
        mrp := e.product.mrp
        discountPercent := 0
        youSave := e.product.mrp - e.product.price
        inStock := e.product.inStock }
    ratings :=
      { averageRating := e.product.rating
        totalReviews := e.product.reviewCount
        ratingBadge := getRatingBadge e.product.rating }
    reviewAnalysis := mkReviewBlock e.review
    priceTracking := mkPriceBlock e.product e.price
    original := e.product }

/-- Embedding of the `enumerate(products, 1)` formatting loop. -/
def formatAux : ℕ → List EnrichedProduct → List FormattedProduct
  | _, [] => []
  | i, e :: es => formatProduct i e :: formatAux (i + 1) es

/-- The whole per-product pipeline (enrichment loop body followed by the
formatting loop body) for the product at zero-based position `i`: every
analysis block is a function of the product itself and the analysis maps
looked up at the product's own ID. -/
def formatOne (reviewResults : List (ℕ × ReviewResultR))
    (priceResults : List (ℕ × PriceResultR)) (rng : ℕ → ℕ → ℚ)
    (dateLabel : ℕ → String) (i : ℕ) (p : SearchProduct) : FormattedProduct :=
  formatProduct (i + 1)
    { product := p
      review := (dlookup p.id reviewResults).getD emptyReviewResult
      price := enrichPrice p ((dlookup p.id priceResults).getD emptyPriceResult)
        (rng i) dateLabel }

/-- One product line of a comparison-agent result (fields the orchestrator
formatter reads). -/
structure CompProduct where
  id : ℕ
  name : String
  price : ℚ
  rating : ℚ
deriving Repr, DecidableEq

/-- One `winners` entry of a comparison-agent result. -/
structure WinnerEntry where
  product : Option String
  value : Option String
  reason : Option String
deriving Repr, DecidableEq

/-- The `winners` dict of a comparison-agent result. -/
structure CompWinners where
  bestPrice : Option WinnerEntry
  bestValue : Option WinnerEntry
  bestRating : Option WinnerEntry
  mostPopular : Option WinnerEntry
  bestOverall : Option WinnerEntry
deriving Repr, DecidableEq

/-- A comparison-agent result as consumed by the orchestrator formatter
(the frontend table passthrough is elided). -/
structure CompResultR where
  success : Bool
  error : Option String
  products : List CompProduct
  winners : CompWinners
  aiAnalysis : Option String
deriving Repr, DecidableEq

/-- The formatted overall-winner record. -/
structure FormattedWinner where
  productName : String
  productId : Option ℕ
  reason : String
  value : String
deriving Repr, DecidableEq

/-- One formatted category-winner record. -/
structure FormattedCatWinner where
  productName : String
  value : String
  raw : Option ℚ
  reason : String
deriving Repr, DecidableEq

/-- The formatted `comparison` block. -/
structure FormattedComparison where
  available : Bool
  error : Option String
  winner : Option FormattedWinner
  winnerName : Option String
  bestPrice : Option FormattedCatWinner
  bestRating : Option FormattedCatWinner
  bestValue : Option FormattedCatWinner
  aiComparison : Option String
deriving Repr, DecidableEq

/-- The empty `{}` winner entry default. -/
def emptyWinnerEntry : WinnerEntry :=
  { product := none, value := none, reason := none }

/-- The comparison-formatting branch of `_format_user_friendly_response`. -/
def formatComparison (comparison : Option CompResultR) :
    Option FormattedComparison :=
  match comparison with
  | none => none
  | some c =>
    if c.success then
      let bestOverall := c.winners.bestOverall.getD emptyWinnerEntry
      let winnerId :=
        (c.products.find? (fun pr => some pr.name = bestOverall.product)).map
          (fun pr => pr.id)
      let bestPriceE := c.winners.bestPrice.getD emptyWinnerEntry
      let bestRatingE := c.winners.bestRating.getD emptyWinnerEntry
      let bestValueE := c.winners.bestValue.getD emptyWinnerEntry
      some
        { available := true
          error := none
          winner := some
            { productName := bestOverall.product.getD "N/A"
              productId := winnerId
              reason := bestOverall.reason.getD "N/A"
              value := bestOverall.value.getD "" }
          winnerName := some (bestOverall.product.getD "N/A")
          bestPrice := some
            { productName := bestPriceE.product.getD "N/A"
              value := bestPriceE.value.getD "N/A"
              raw := some (if c.products ≠ [] then
                  listMin (c.products.map (fun pr => pr.price)) else 0)
              reason := bestPriceE.reason.getD "" }
          bestRating := some
            { productName := bestRatingE.product.getD "N/A"
              value := bestRatingE.value.getD "N/A"
              raw := some (if c.products ≠ [] then
                  listMax (c.products.map (fun pr => pr.rating)) else 0)
              reason := bestRatingE.reason.getD "" }
          bestValue := some
            { productName := bestValueE.product.getD "N/A"
              value := bestValueE.value.getD "N/A"
              raw := none
              reason := bestValueE.reason.getD "" }
          aiComparison := some (c.aiAnalysis.getD "") }
    else
      some
        { available := false
          error := some (c.error.getD "Comparison failed")
          winner := none, winnerName := none, bestPrice := none,
          bestRating := none, bestValue := none, aiComparison := none }

/-- The formatted `buy_plan` block. -/
structure FormattedBuyPlan where
  available : Bool
  productName : String
  productPrice : ℚ
  emiEligible : Bool
  paymentOptions : List PaymentOption
  regularEmiPlans : List EmiPlan
  noCostEmiPlans : List EmiPlan
  bestInstantSavings : Option PaymentOption
  bestCashback : Option PaymentOption
  bestEmi : Option PaymentOption
  aiRecommendation : String
deriving Repr, DecidableEq

/-- The buy-plan-formatting branch of `_format_user_friendly_response`:
dropped entirely whenever the buy-plan dict is absent or carries an
`error` key. -/
def formatBuyPlan (buyplan : Option BuyPlanResultR) : Option FormattedBuyPlan :=
  match buyplan with
  | none => none
  | some b =>
    if b.error.isSome then none
    else
      some
        { available := true
          productName := b.productName
          productPrice := b.productPrice
          emiEligible := b.emiEligible
          paymentOptions := b.paymentOptions
          regularEmiPlans := b.regularEmiPlans
          noCostEmiPlans := b.noCostEmiPlans
          bestInstantSavings := b.bestInstantSavings
          bestCashback := b.bestCashback
          bestEmi := b.bestEmi
          aiRecommendation := b.aiRecommendation }

/-- The executive `summary` block. -/
structure SummaryBlock where
  totalProductsFound : ℕ
  topRecommendation : String
  topPrice : ℚ
  topRating : ℚ
  aiRecommendation : String
deriving Repr, DecidableEq

/-- The `metadata` block. -/
structure MetaBlock where
  agentsUsed : List String
  totalAgents : ℕ
  executionType : String
  llmModel : String
deriving Repr, DecidableEq

/-- The orchestrator's response dict. -/
structure OrchResponse where
  success : Bool
  error : Option String
  query : String
  timestamp : Option String
  executionTimeSeconds : Option ℚ
  summary : Option SummaryBlock
  products : List FormattedProduct
  comparison : Option FormattedComparison
  buyPlan : Option FormattedBuyPlan
  metadata : Option MetaBlock
deriving Repr, DecidableEq

/-- Embedding of `_generate_fallback_summary` (thousands separators of the
price rendering elided). -/
def generateFallbackSummary (query : String) (products : List EnrichedProduct) :
    String :=
  match products with
  | [] => "No products found for '" ++ query ++ "'."
  | top :: rest =>
    let s := "Based on your search for '" ++ query ++ "', I recommend the "
      ++ top.product.name ++ " at ₹" ++ toString (rhe top.product.price) ++ ". "
    let s := if top.product.rating ≠ 0 then
        s ++ "It has a rating of " ++ toString top.product.rating ++ "/5 stars. "
      else s
    let s := if rest.length + 1 > 1 then
        s ++ "I've also analyzed " ++ toString rest.length
          ++ " alternative options for comparison. "
      else s
    s ++ "Check the detailed analysis above for reviews, price trends, and payment options."

/-- Embedding of `_format_user_friendly_response`. -/
def formatUserFriendlyResponse (query : String)
    (products : List EnrichedProduct) (comparison : Option CompResultR)
    (buyplan : Option BuyPlanResultR) (aiSummary : String)
    (executionTime : ℚ) (timestamp : String) (modelName : String) :
    OrchResponse :=
  let formattedProducts := formatAux 1 products
  { success := true
    error := none
    query := query
    timestamp := some timestamp
    executionTimeSeconds := some (round2 executionTime)
    summary := some
      { totalProductsFound := products.length
        topRecommendation :=
          match products with
          | [] => "N/A"
          | top :: _ => top.product.name
        topPrice :=
          match products with
          | [] => 0
          | top :: _ => top.product.price
        topRating :=
          match products with
          | [] => 0
          | top :: _ => top.product.rating
        aiRecommendation := aiSummary }
    products := formattedProducts
    comparison := formatComparison comparison
    buyPlan := formatBuyPlan buyplan
    metadata := some
      { agentsUsed := ["Product Search", "Review Analyzer", "Price Tracker",
          "Comparison Specialist", "Buy Plan Optimizer"]
        totalAgents := 5
        executionType := "parallel"
        llmModel := modelName } }

/-- Embedding of `OrchestratorAgent.orchestrate_recommendation` after the
retrieval step: `search` is the search agent's result, the four analysis
outcomes arrive as data (timeouts and failures included; an analysis slot
that never completed is an absent map entry or `none`), `rng` supplies the
mock-chart random draws (product index → day offset → variation) and
`dateLabel` the mock-chart date rendering. -/
def orchestrateRecommendation (query : String) (search : SearchResultR)
    (topN : ℕ) (reviewResults : List (ℕ × ReviewResultR))
    (priceResults : List (ℕ × PriceResultR)) (comparison : Option CompResultR)
    (buyplan : Option BuyPlanResultR) (rng : ℕ → ℕ → ℚ)
    (dateLabel : ℕ → String) (executionTime : ℚ) (timestamp : String)
    (modelName : String) : OrchResponse :=
  if search.success = false ∨ search.products = [] then
    { success := false
      error := some "No products found matching your query"
      query := query, timestamp := none, executionTimeSeconds := none,
      summary := none, products := [], comparison := none, buyPlan := none,
      metadata := none }
  else
    let products := search.products.take topN
    let enriched := enrichProducts products reviewResults priceResults rng dateLabel
    let aiSummary := generateFallbackSummary query enriched
    formatUserFriendlyResponse query enriched comparison buyplan aiSummary
      executionTime timestamp modelName

/-! ### Specification-side definitions and concrete sample inputs -/

/-- Trust score as the specification words it: start at 0.5; add
`0.3 × verified_ratio`; add 0.2 for a balanced distribution, else subtract
0.1 for a suspiciously high five-star share; add 0.1 (or 0.05) for sample
size; clamp to `[0, 1]`.  Written from the spec, for comparison with
`calculateTrustScore`. -/
def trustScoreSpec (verifiedRatio fiveStarShare oneStarShare : ℚ)
    (reviewCount : ℕ) : ℚ :=
  let base := 1/2 + (3/10) * verifiedRatio
    + (if fiveStarShare < 7/10 ∧ oneStarShare < 3/10 then 1/5
       else if fiveStarShare > 9/10 then -(1/10) else 0)
    + (if reviewCount > 50 then 1/10
       else if reviewCount > 20 then 1/20 else 0)
  min (max base 0) 1

/-- Sample: a degenerate random stream (all variations 0). -/
def rngZero : ℕ → ℕ → ℚ := fun _ _ => 0

/-- Sample: a random stream drawing the maximal +5% variation. -/
def rngHigh : ℕ → ℕ → ℚ := fun _ _ => 1/20

/-- Sample: a date renderer for mock charts. -/
def dateLabel0 : ℕ → String := fun i => "2026-10-" ++ toString i

/-- Sample: a trivial LLM-response parser. -/
def trivialParse : String → String × List String × List String × String :=
  fun t => ("Neutral", [], [], t)

/-- Sample search product 1. -/
def sampleProduct1 : SearchProduct :=
  { id := 1, name := "Alpha Phone", brand := "Alpha", price := 100,
    mrp := 120, rating := 4, reviewCount := 10, inStock := true }

/-- Sample search product 2. -/
def sampleProduct2 : SearchProduct :=
  { id := 2, name := "Beta Phone", brand := "Beta", price := 200,
    mrp := 220, rating := 9/2, reviewCount := 5, inStock := true }

/-- Sample successful search result. -/
def sampleSearch : SearchResultR :=
  { success := true, products := [sampleProduct1, sampleProduct2] }

/-- Sample verified five-star review. -/
def sampleReview : Review :=
  { rating := 5, text := "great quality", verified := true, helpfulCount := 3 }

/-- Sample themes. -/
def sampleThemes : Themes := { positive := ["great quality"], negative := [] }

/-- Sample two-point price history (newest first). -/
def sampleHistory : List HistoryEntry :=
  [{ price := 100, date := "2026-10-10T00:00:00" },
   { price := 110, date := "2026-10-09T00:00:00" }]

/-- Zero EMI plan, used only as a `headD` default. -/
def zeroPlan : EmiPlan :=
  { tenureMonths := 0, emiPerMonth := 0, totalAmount := 0, totalInterest := 0,
    interestRateAnnual := 0, processingFee := 0, planType := "",
    totalPayable := none }

/-- Sample: the 3-month regular EMI plan at price 5000. -/
def sampleRegularPlan : EmiPlan :=
  (calculateEmiPlans 5000 stdTenures).headD zeroPlan

/-- Sample: the 3-month no-cost EMI plan at price 5000. -/
def sampleNoCostPlan : EmiPlan :=
  (calculateNoCostEmi 5000 noCostTenures).headD zeroPlan

/-- Sample single-product search result. -/
def sampleSearchOne : SearchResultR :=
  { success := true, products := [sampleProduct1] }

/-- Sample successful price result carrying the two-point history. -/
def samplePriceResult : PriceResultR :=
  { success := true, error := none, priceData := none,
    history := sampleHistory, aiRecommendation := none,
    recommendation := none, confidence := none }

/-- Sample product row for the buy-plan path. -/
def sampleProductRow : ProductRow :=
  { id := 1, name := "Alpha Phone", price := 30000, mrp := some 35000,
    rating := 4, reviewCount := 10, inStock := true }

/-- Sample active no-cost-EMI card offer row with a 6-month tenure. -/
def sampleNoCostOffer : CardOfferRow :=
  { id := 1, bankName := "HDFC", cardType := "credit",
    offerType := "no_cost_emi", discountAmount := none,
    discountPercentage := none, cashbackAmount := none,
    minTransactionAmount := none, emiTenure := some "6", isNoCostEmi := true,
    offerDescription := "No cost EMI for 6 months", isActive := true }

/-! ### Helper lemmas -/

/-- The half-even rounding never undershoots by more than one half. -/
theorem rhe_ge (q : ℚ) : q - 1/2 ≤ (rhe q : ℚ) := by
  unfold rhe
  split_ifs with h h2
  · linarith
  · push_cast
    linarith
  · have h1 := Int.lt_floor_add_one (q + 1/2)
    linarith

/-- The half-even rounding never overshoots by more than one half. -/
theorem rhe_le (q : ℚ) : (rhe q : ℚ) ≤ q + 1/2 := by
  unfold rhe
  split_ifs with h h2
  · linarith
  · push_cast
    linarith
  · have h1 := Int.floor_le (q + 1/2)
    linarith

/-- Two-decimal rounding never undershoots by more than 0.005. -/
theorem round2_ge (x : ℚ) : x - 1/200 ≤ round2 x := by
  have h := rhe_ge (100 * x)
  unfold round2
  linarith

/-- Two-decimal rounding never overshoots by more than 0.005. -/
theorem round2_le (x : ℚ) : round2 x ≤ x + 1/200 := by
  have h := rhe_le (100 * x)
  unfold round2
  linarith

/-- The clamped trust score always lies in the unit interval. -/
theorem trustScore_unit (stats : ReviewStats) :
    0 ≤ calculateTrustScore stats ∧ calculateTrustScore stats ≤ 1 := by
  unfold calculateTrustScore
  refine ⟨le_min (le_max_right _ _) (by norm_num), min_le_right _ _⟩

/-- A rounded regular EMI times its tenure covers the principal, given a
one-rupee floor on the price: the exact annuity slack beats the
half-a-paisa rounding loss for every standard tenure. -/
theorem emi_covers (price : ℚ) (hp : 1 ≤ price) (c : ℚ) (n : ℕ)
    (hc : 1 + (n : ℚ) / 200 ≤ c * n) :
    price ≤ round2 (price * c) * n := by
  have hb := round2_ge (price * c)
  have hn : (0 : ℚ) ≤ n := by positivity
  have hmul : (price * c - 1/200) * n ≤ round2 (price * c) * n :=
    mul_le_mul_of_nonneg_right hb hn
  have hpos : (0 : ℚ) < price := lt_of_lt_of_le one_pos hp
  have hscaled : price * (1 + (n : ℚ) / 200) ≤ price * (c * n) :=
    mul_le_mul_of_nonneg_left hc (le_of_lt hpos)
  nlinarith

/-- Rounding each no-cost installment costs at most half a paisa per
installment in total. -/
theorem nocost_bound (price : ℚ) (n : ℕ) (hn : (n : ℚ) ≠ 0) :
    |round2 (price / n) * n - price| ≤ (n : ℚ) / 200 := by
  have h1 := round2_ge (price / n)
  have h2 := round2_le (price / n)
  have hnn : (0 : ℚ) ≤ n := by positivity
  have hc : (price / n) * n = price := div_mul_cancel₀ price hn
  rw [abs_le]
  constructor
  · nlinarith [mul_le_mul_of_nonneg_right h1 hnn]
  · nlinarith [mul_le_mul_of_nonneg_right h2 hnn]

/-- Exact evaluation rule for the half-even rounding away from ties. -/
theorem rhe_eq (q : ℚ) (n : ℤ) (h1 : (n : ℚ) - 1/2 < q) (h2 : q < n + 1/2) :
    rhe q = n := by
  have hfq : (⌊q⌋ : ℚ) ≤ q := Int.floor_le q
  have hfq2 : q < ⌊q⌋ + 1 := Int.lt_floor_add_one q
  have hne : ¬ (q - (⌊q⌋ : ℚ) = 1/2) := by
    intro h
    have hl : ((n : ℚ) - 1 : ℚ) < (⌊q⌋ : ℚ) := by linarith
    have hr' : ((⌊q⌋ : ℚ) : ℚ) < n := by linarith
    have hl' : n - 1 < ⌊q⌋ := by exact_mod_cast hl
    have hr'' : ⌊q⌋ < n := by exact_mod_cast hr'
    omega
  unfold rhe
  rw [if_neg hne]
  refine Int.floor_eq_iff.mpr ⟨by linarith, by linarith⟩

/-- Round2 of an exact non-tie value. -/
theorem round2_eq (x : ℚ) (n : ℤ) (h1 : (n : ℚ) - 1/2 < 100 * x)
    (h2 : 100 * x < n + 1/2) : round2 x = n / 100 := by
  unfold round2
  rw [rhe_eq (100 * x) n h1 h2]

/-- The annuity EMI is linear in the principal. -/
theorem emiRaw_linear (price : ℚ) (n : ℕ) :
    emiRaw price n = price * emiRaw 1 n := by
  unfold emiRaw
  dsimp only
  split_ifs
  · ring
  · ring

/-- Per-tenure reduction of the EMI covering bound to a concrete rational
inequality about the unit-principal EMI. -/
theorem emi_case (price : ℚ) (hp : 1 ≤ price) (n : ℕ)
    (hc : 1 + (n : ℚ) / 200 ≤ emiRaw 1 n * n) :
    price ≤ round2 (emiRaw price n) * n := by
  rw [emiRaw_linear]
  exact emi_covers price hp _ n hc

/-! ### Claim theorems -/

/-- C4 (counterexample).  The claim fails as stated: at price 0.01 the
3-month regular EMI rounds to 0.00, so EMI × tenure < price; and at price
100 the 3-month no-cost EMI is 33.33, so EMI × tenure = 99.99 ≠ 100 — the
source keeps every installment equal to `round(price/n, 2)` and has no
last-installment adjustment. -/
theorem claim4_counterexample :
    ((calculateEmiPlans (1/100) stdTenures).head?.map
        (fun p => (p.tenureMonths, p.emiPerMonth))) = some (3, 0)
    ∧ ¬ ((1 : ℚ)/100 ≤ 0 * 3)
    ∧ ((calculateNoCostEmi 100 noCostTenures).head?.map
        (fun p => (p.tenureMonths, p.emiPerMonth))) = some (3, 3333/100)
    ∧ (3333/100 : ℚ) * 3 ≠ 100 := by
  have hr1 : round2 (emiRaw (1/100) 3) = 0 := by
    have he : emiRaw (1/100) 3 = 1030301/303010000 := by
      unfold emiRaw
      norm_num [dlookup, interestRates]
    rw [he]
    have := round2_eq (1030301/303010000) 0 (by norm_num) (by norm_num)
    simpa using this
  have hr2 : round2 ((100 : ℚ) / (((3 : ℕ) : ℚ))) = 3333/100 := by
    have := round2_eq ((100 : ℚ) / (((3 : ℕ) : ℚ))) 3333 (by norm_num) (by norm_num)
    simpa using this
  refine ⟨?_, by norm_num, ?_, by norm_num⟩
  · simp only [calculateEmiPlans, stdTenures, List.map_cons, List.head?_cons,
      Option.map_some']
    rw [hr1]
  · simp only [calculateNoCostEmi, noCostTenures, List.map_cons, List.head?_cons,
      Option.map_some']
    rw [hr2]

/-- C4 (amended).  For any price of at least one rupee: every regular-EMI
plan at the fixed annual rates satisfies rounded EMI × tenure ≥ price; and
every no-cost EMI plan has installment `round2 (price / n)`, zero total
interest, a flat 199 processing fee, and EMI × tenure equal to the price
only up to the rounding error of half a paisa per installment (not
exactly). -/
theorem claim4_emi_math (price : ℚ) (rp np : EmiPlan) (hp : 1 ≤ price)
    (hr : rp ∈ calculateEmiPlans price stdTenures)
    (hn : np ∈ calculateNoCostEmi price noCostTenures) :
    price ≤ rp.emiPerMonth * rp.tenureMonths
    ∧ np.emiPerMonth = round2 (price / np.tenureMonths)
    ∧ np.totalInterest = 0 ∧ np.processingFee = 199
    ∧ |np.emiPerMonth * np.tenureMonths - price| ≤ (np.tenureMonths : ℚ) / 200 := by
  rcases List.mem_map.mp hr with ⟨rm, hrm, rfl⟩
  rcases List.mem_map.mp hn with ⟨nm, hnm, rfl⟩
  have hrm' : rm = 3 ∨ rm = 6 ∨ rm = 9 ∨ rm = 12 ∨ rm = 18 ∨ rm = 24 := by
    simpa [stdTenures] using hrm
  have hnm' : nm = 3 ∨ nm = 6 ∨ nm = 9 ∨ nm = 12 := by
    simpa [noCostTenures] using hnm
  refine ⟨?_, rfl, rfl, rfl, ?_⟩
  · rcases hrm' with rfl | rfl | rfl | rfl | rfl | rfl <;>
      · dsimp only
        exact_mod_cast emi_case price hp _
          (by norm_num [emiRaw, dlookup, interestRates])
  · rcases hnm' with rfl | rfl | rfl | rfl <;>
      · dsimp only
        exact_mod_cast nocost_bound price _ (by norm_num)

/-- C4 (witness): at price 5000 the 3-month regular plan's rounded EMI
times its tenure covers the principal. -/
theorem claim4_witness :
    (1 : ℚ) ≤ 5000
    ∧ sampleRegularPlan ∈ calculateEmiPlans 5000 stdTenures
    ∧ sampleNoCostPlan ∈ calculateNoCostEmi 5000 noCostTenures
    ∧ (5000 : ℚ) ≤ sampleRegularPlan.emiPerMonth * sampleRegularPlan.tenureMonths := by
  have hm1 : sampleRegularPlan ∈ calculateEmiPlans 5000 stdTenures := by
    unfold sampleRegularPlan
    simp only [calculateEmiPlans, stdTenures, List.map_cons, List.headD_cons]
    exact List.mem_cons_self _ _
  have hm2 : sampleNoCostPlan ∈ calculateNoCostEmi 5000 noCostTenures := by
    unfold sampleNoCostPlan
    simp only [calculateNoCostEmi, noCostTenures, List.map_cons, List.headD_cons]
    exact List.mem_cons_self _ _
  exact ⟨by norm_num, hm1, hm2,
    (claim4_emi_math 5000 sampleRegularPlan sampleNoCostPlan (by norm_num)
      hm1 hm2).1⟩

/-- C5.  The trust score equals the specification's formula (given at
least one review, so the shares are well-defined), lies in `[0, 1]`, and
every analyzer result that carries a trust score — the LLM path and the
timeout fallback path alike — has its trust score in `[0, 1]`. -/
theorem claim5_trust_score (stats : ReviewStats) (_h : 0 < stats.totalReviews) :
    calculateTrustScore stats =
      trustScoreSpec ((stats.verifiedPurchases : ℚ) / (stats.totalReviews : ℚ))
        ((((dlookup 5 stats.ratingDistribution).getD 0 : ℕ) : ℚ) / (stats.totalReviews : ℚ))
        ((((dlookup 1 stats.ratingDistribution).getD 0 : ℕ) : ℚ) / (stats.totalReviews : ℚ))
        stats.totalReviews
    ∧ (0 ≤ calculateTrustScore stats ∧ calculateTrustScore stats ≤ 1)
    ∧ ∀ (reviews : List Review) (themes : Themes) (llm : LLMOutcome)
        (parseResp : String → String × List String × List String × String)
        (t : ℚ),
        (analyzeReviews none reviews themes llm parseResp).result.trustScore
          = some t →
        0 ≤ t ∧ t ≤ 1 := by
  refine ⟨?_, trustScore_unit stats, ?_⟩
  · unfold calculateTrustScore trustScoreSpec
    dsimp only
    split_ifs <;> ring
  · intro reviews themes llm parseResp t hsome
    simp only [analyzeReviews] at hsome
    by_cases hrev : reviews = []
    · rw [if_pos hrev] at hsome
      simp [emptyReviewResult] at hsome
    · rw [if_neg hrev] at hsome
      cases llm with
      | ok text =>
        dsimp only at hsome
        injection hsome with h
        rw [← h]
        exact trustScore_unit _
      | timeout =>
        dsimp only at hsome
        injection hsome with h
        rw [← h]
        exact trustScore_unit _
      | failed msg =>
        simp [emptyReviewResult] at hsome

/-- C5 (witness): a single verified five-star review gives a concrete
nonempty statistics record inside the unit interval. -/
theorem claim5_witness :
    0 < (getReviewStatistics [sampleReview]).totalReviews
    ∧ (0 ≤ calculateTrustScore (getReviewStatistics [sampleReview])
        ∧ calculateTrustScore (getReviewStatistics [sampleReview]) ≤ 1) :=
  ⟨by decide, (claim5_trust_score (getReviewStatistics [sampleReview]) (by decide)).2.1⟩

/-- Case analysis of the buy/wait recommendation ladder of
`calculate_price_trend`. -/
theorem rec_iff (cur m a : ℚ) (tr : String) :
    ((if cur ≤ m * (21/20) then "buy_now"
      else if tr = "decreasing" then "wait"
      else if a ≤ cur then "wait" else "good_time") = "buy_now"
      ↔ cur ≤ m * (21/20))
    ∧ ((if cur ≤ m * (21/20) then "buy_now"
      else if tr = "decreasing" then "wait"
      else if a ≤ cur then "wait" else "good_time") = "wait"
      ↔ ¬ cur ≤ m * (21/20) ∧ (tr = "decreasing" ∨ a ≤ cur))
    ∧ ((if cur ≤ m * (21/20) then "buy_now"
      else if tr = "decreasing" then "wait"
      else if a ≤ cur then "wait" else "good_time") = "good_time"
      ↔ ¬ cur ≤ m * (21/20) ∧ ¬ (tr = "decreasing" ∨ a ≤ cur)) := by
  by_cases h1 : cur ≤ m * (21/20)
  · rw [if_pos h1]
    exact ⟨⟨fun _ => h1, fun _ => rfl⟩,
      ⟨fun hw => absurd hw (by decide), fun hw => absurd h1 hw.1⟩,
      ⟨fun hg => absurd hg (by decide), fun hg => absurd h1 hg.1⟩⟩
  · rw [if_neg h1]
    by_cases h2 : tr = "decreasing"
    · rw [if_pos h2]
      exact ⟨⟨fun hb => absurd hb (by decide), fun hb => absurd hb h1⟩,
        ⟨fun _ => ⟨h1, Or.inl h2⟩, fun _ => rfl⟩,
        ⟨fun hg => absurd hg (by decide), fun hg => absurd (Or.inl h2) hg.2⟩⟩
    · rw [if_neg h2]
      by_cases h3 : a ≤ cur
      · rw [if_pos h3]
        exact ⟨⟨fun hb => absurd hb (by decide), fun hb => absurd hb h1⟩,
          ⟨fun _ => ⟨h1, Or.inr h3⟩, fun _ => rfl⟩,
          ⟨fun hg => absurd hg (by decide), fun hg => absurd (Or.inr h3) hg.2⟩⟩
      · rw [if_neg h3]
        refine ⟨⟨fun hb => absurd hb (by decide), fun hb => absurd hb h1⟩,
          ⟨fun hw => absurd hw (by decide), fun hw => ?_⟩,
          ⟨fun _ => ⟨h1, ?_⟩, fun _ => rfl⟩⟩
        · rcases hw.2 with h | h
          · exact absurd h h2
          · exact absurd h h3
        · rintro (h | h)
          · exact h2 h
          · exact h3 h

/-- C6.  For a non-empty 30-day history the recommendation is `buy_now`
iff the current price is within 5% of the 30-day minimum; failing that it
is `wait` iff the trend is decreasing or the current price is at least the
30-day average; otherwise it is `good_time`.  For an empty history the
result is trend `unknown` with recommendation `wait`. -/
theorem claim6_price_recommendation (history : List HistoryEntry)
    (currentPrice : ℚ) (hne : history ≠ []) :
    ((calculatePriceTrend history currentPrice).recommendation = "buy_now"
      ↔ currentPrice ≤ listMin (history.map (fun h => h.price)) * (21/20))
    ∧ ((calculatePriceTrend history currentPrice).recommendation = "wait"
      ↔ ¬ currentPrice ≤ listMin (history.map (fun h => h.price)) * (21/20)
        ∧ ((calculatePriceTrend history currentPrice).trend = "decreasing"
          ∨ (history.map (fun h => h.price)).sum
              / ((history.map (fun h => h.price)).length : ℚ) ≤ currentPrice))
    ∧ ((calculatePriceTrend history currentPrice).recommendation = "good_time"
      ↔ ¬ currentPrice ≤ listMin (history.map (fun h => h.price)) * (21/20)
        ∧ ¬ ((calculatePriceTrend history currentPrice).trend = "decreasing"
          ∨ (history.map (fun h => h.price)).sum
              / ((history.map (fun h => h.price)).length : ℚ) ≤ currentPrice))
    ∧ (calculatePriceTrend [] currentPrice).trend = "unknown"
    ∧ (calculatePriceTrend [] currentPrice).recommendation = "wait" := by
  have hemp : calculatePriceTrend [] currentPrice =
      { currentPrice := none, averagePrice := none, minPrice := none,
        maxPrice := none, trend := "unknown", priceChange := some 0,
        priceChangePct := none, recommendation := "wait", dataPoints := none,
        chartData := none, error := some "No price history available" } := by
    unfold calculatePriceTrend
    rw [if_pos rfl]
  refine ⟨?_, ?_, ?_, by rw [hemp], by rw [hemp]⟩
  all_goals unfold calculatePriceTrend
  all_goals rw [if_neg hne]
  all_goals dsimp only
  · exact (rec_iff _ _ _ _).1
  · exact (rec_iff _ _ _ _).2.1
  · exact (rec_iff _ _ _ _).2.2

/-- C6 (witness): a concrete two-point history around price 100 where the
current price sits at the minimum. -/
theorem claim6_witness :
    sampleHistory ≠ []
    ∧ ((calculatePriceTrend sampleHistory 100).recommendation = "buy_now"
      ↔ (100 : ℚ) ≤ listMin (sampleHistory.map (fun h => h.price)) * (21/20)) :=
  ⟨by decide, (claim6_price_recommendation sampleHistory 100 (by decide)).1⟩

/-- C9 (counterexample).  The zero-review result's message is the literal
string of the source, which is not the string quoted by the claim. -/
theorem claim9_counterexample :
    (analyzeReviews none [] sampleThemes LLMOutcome.timeout trivialParse).result.message
      = some "No reviews found for this product"
    ∧ some "No reviews found for this product" ≠ some "No reviews found" := by
  constructor
  · simp [analyzeReviews, emptyReviewResult]
  · decide

/-- C9 (amended).  For a product with zero reviews (and a cold cache) the
analyzer returns a failure result with message "No reviews found for this
product" and never invokes the LLM, whatever the LLM oracle and parser
would have done. -/
theorem claim9_no_reviews (themes : Themes) (llm : LLMOutcome)
    (parseResp : String → String × List String × List String × String) :
    (analyzeReviews none [] themes llm parseResp).result.success = false
    ∧ (analyzeReviews none [] themes llm parseResp).result.message
        = some "No reviews found for this product"
    ∧ (analyzeReviews none [] themes llm parseResp).llmCalled = false := by
  refine ⟨?_, ?_, ?_⟩ <;> simp [analyzeReviews, emptyReviewResult]

/-- C10.  Whatever the inputs, anything the analyzer writes to the review
cache is a successful analysis: the LLM-backed result and the timeout
fallback are cached with `success = true`, while the zero-review outcome,
the exception outcome, and cache hits write nothing. -/
theorem claim10_cache_success (cached : Option ReviewResultR)
    (reviews : List Review) (themes : Themes) (llm : LLMOutcome)
    (parseResp : String → String × List String × List String × String)
    (w : ReviewResultR)
    (hw : (analyzeReviews cached reviews themes llm parseResp).cacheWrite = some w) :
    w.success = true := by
  cases cached with
  | some r => simp [analyzeReviews] at hw
  | none =>
    simp only [analyzeReviews] at hw
    by_cases hrev : reviews = []
    · rw [if_pos hrev] at hw
      simp at hw
    · rw [if_neg hrev] at hw
      cases llm with
      | ok text =>
        dsimp only at hw
        injection hw with h
        rw [← h]
      | timeout =>
        dsimp only at hw
        injection hw with h
        rw [← h]
      | failed msg =>
        simp at hw

/-- C10 (witness): a concrete timeout run whose fallback result is cached
and is successful. -/
theorem claim10_witness :
    (analyzeReviews none [sampleReview] sampleThemes LLMOutcome.timeout
        trivialParse).cacheWrite
      = some (analyzeReviews none [sampleReview] sampleThemes LLMOutcome.timeout
        trivialParse).result
    ∧ (analyzeReviews none [sampleReview] sampleThemes LLMOutcome.timeout
        trivialParse).result.success = true := by
  constructor
  · simp [analyzeReviews]
  · exact claim10_cache_success none [sampleReview] sampleThemes
      LLMOutcome.timeout trivialParse _ (by simp [analyzeReviews])

/-- Replacing every entry keyed `k` changes only the lookup at `k`. -/
theorem dlookup_replace {α : Type} (m : List (ℕ × α)) (k k' : ℕ) (v : α) :
    dlookup k' (m.map (fun e => if e.1 = k then (k, v) else e)) =
      if k' = k then (if (dlookup k m).isSome then some v else none)
      else dlookup k' m := by
  induction m with
  | nil => simp [dlookup]
  | cons hd rest ih =>
    obtain ⟨a, b⟩ := hd
    simp only [List.map_cons]
    by_cases ha : a = k
    · rw [if_pos (show (a, b).1 = k from ha)]
      subst ha
      by_cases hk : k' = a
      · subst hk
        simp [dlookup]
      · simp only [dlookup, if_neg (fun h : a = k' => hk h.symm), ih, if_neg hk]
    · rw [if_neg (show ¬ (a, b).1 = k from ha)]
      by_cases hk : a = k'
      · have hkk : ¬ k' = k := fun h => ha (hk.trans h)
        rw [if_neg hkk]
        simp only [dlookup, if_pos hk]
      · simp only [dlookup, if_neg hk, ih]
        by_cases hkk : k' = k
        · subst hkk
          simp only [if_pos rfl, dlookup, if_neg ha]
        · simp only [if_neg hkk]

/-- Key presence in the dict coincides with a successful lookup. -/
theorem contains_iff_isSome {α : Type} (m : List (ℕ × α)) (k : ℕ) :
    (m.map Prod.fst).contains k = true ↔ (dlookup k m).isSome = true := by
  induction m with
  | nil => simp [dlookup]
  | cons hd rest ih =>
    obtain ⟨a, b⟩ := hd
    by_cases ha : a = k
    · subst ha
      simp [dlookup]
    · simp only [List.map_cons, List.contains_cons, dlookup, if_neg ha]
      have hb : (k == a) = false := by
        simp [Ne.symm ha]
      rw [hb]
      simpa using ih

/-- Lookup through an appended singleton. -/
theorem dlookup_append_single {α : Type} (m : List (ℕ × α)) (k k' : ℕ) (v : α) :
    dlookup k' (m ++ [(k, v)]) =
      match dlookup k' m with
      | some w => some w
      | none => if k' = k then some v else none := by
  induction m with
  | nil => simp [dlookup, eq_comm]
  | cons hd rest ih =>
    obtain ⟨a, b⟩ := hd
    by_cases ha : a = k'
    · simp [dlookup, ha]
    · simp only [List.cons_append, dlookup, if_neg ha]
      exact ih

/-- The dict-assignment law for lookups. -/
theorem dlookup_dictSet {α : Type} (m : List (ℕ × α)) (k k' : ℕ) (v : α) :
    dlookup k' (dictSet m k v) = if k' = k then some v else dlookup k' m := by
  unfold dictSet
  by_cases hc : (m.map Prod.fst).contains k = true
  · rw [if_pos hc, dlookup_replace]
    rw [if_pos ((contains_iff_isSome m k).mp hc)]
  · rw [if_neg hc, dlookup_append_single]
    have hnone : dlookup k m = none := by
      cases hd : dlookup k m with
      | none => rfl
      | some w =>
        exact absurd ((contains_iff_isSome m k).mpr (by simp [hd])) hc
    by_cases hk : k' = k
    · subst hk
      rw [hnone]
    · cases hd : dlookup k' m with
      | none => simp [hk]
      | some w => simp [hk]

/-- A key outside a list of entries is never found. -/
theorem find?_eq_none_of_not_mem (rest : List SemEntry) (k : ℕ)
    (h : k ∉ rest.map (fun r => r.productId)) :
    rest.find? (fun r => r.productId = k) = none := by
  rw [List.find?_eq_none]
  intro x hx
  simp only [decide_eq_true_eq]
  intro hk
  exact h (List.mem_map.mpr ⟨x, hx, hk⟩)

/-- Lookup after the semantic fold of `_combine_and_rank`, for duplicate-free
semantic hits. -/
theorem dlookup_semFold (sem : List SemEntry) (m0 : List (ℕ × ℚ)) (k : ℕ)
    (hnd : (sem.map (fun r => r.productId)).Nodup) :
    dlookup k (sem.foldl
        (fun m r => dictSet m r.productId ((r.similarityScore.getD (1/2)) * (7/10))) m0) =
      match sem.find? (fun r => r.productId = k) with
      | some r => some ((r.similarityScore.getD (1/2)) * (7/10))
      | none => dlookup k m0 := by
  induction sem generalizing m0 with
  | nil => rfl
  | cons r rest ih =>
    simp only [List.map_cons, List.nodup_cons] at hnd
    rw [List.foldl_cons, ih _ hnd.2]
    by_cases hk : r.productId = k
    · subst hk
      rw [find?_eq_none_of_not_mem rest _ hnd.1]
      simp [List.find?_cons, dlookup_dictSet]
    · rw [List.find?_cons_of_neg _ (by simpa using hk)]
      cases hf : rest.find? (fun x => decide (x.productId = k)) with
      | none =>
        simp only [hf]
        rw [dlookup_dictSet, if_neg (fun h => hk h.symm)]
      | some w => simp only [hf]


/-- Lookup after the traditional fold of `_combine_and_rank`, for
duplicate-free traditional hits. -/
theorem dlookup_tradFold (trad : List ℕ) (m0 : List (ℕ × ℚ)) (k : ℕ)
    (hnd : trad.Nodup) :
    dlookup k (trad.foldl
        (fun (m : List (ℕ × ℚ)) (pid : ℕ) =>
          match dlookup pid m with
          | some v => dictSet m pid (v + 3/10)
          | none => dictSet m pid (3/10)) m0) =
      if trad.contains k then
        match dlookup k m0 with
        | some v => some (v + 3/10)
        | none => some (3/10)
      else dlookup k m0 := by
  induction trad generalizing m0 with
  | nil => simp
  | cons t rest ih =>
    simp only [List.nodup_cons] at hnd
    rw [List.foldl_cons, ih _ hnd.2]
    have hstep : ∀ k', dlookup k'
        (match dlookup t m0 with
         | some v => dictSet m0 t (v + 3/10)
         | none => dictSet m0 t (3/10)) =
        if k' = t then
          (match dlookup t m0 with
           | some v => some (v + 3/10)
           | none => some (3/10))
        else dlookup k' m0 := by
      intro k'
      cases hd : dlookup t m0 with
      | none => rw [dlookup_dictSet]
      | some v => rw [dlookup_dictSet]
    by_cases hk : k = t
    · subst hk
      have hrest : rest.contains k = false := by
        simpa using hnd.1
      rw [List.contains_cons]
      simp only [hrest, beq_self_eq_true, Bool.true_or, if_true, Bool.false_eq_true,
        if_false]
      rw [hstep k, if_pos rfl]
    · rw [List.contains_cons]
      have hbeq : (k == t) = false := by simpa using hk
      rw [hbeq]
      simp only [Bool.false_or]
      by_cases hr : rest.contains k = true
      · rw [hr]
        simp only [if_true]
        rw [hstep k, if_neg hk]
      · simp only [Bool.not_eq_true] at hr
        rw [hr]
        simp only [Bool.false_eq_true, if_false]
        rw [hstep k, if_neg hk]

/-- Membership through `insertBy`. -/
theorem mem_insertBy {α : Type} (le : α → α → Bool) (x z : α) (l : List α) :
    z ∈ insertBy le x l ↔ z = x ∨ z ∈ l := by
  induction l with
  | nil => simp [insertBy]
  | cons y ys ih =>
    unfold insertBy
    split_ifs
    · simp [or_comm, or_assoc, or_left_comm]
    · simp only [List.mem_cons, ih]
      tauto

/-- Membership through `sortBy`. -/
theorem mem_sortBy {α : Type} (le : α → α → Bool) (z : α) (l : List α) :
    z ∈ sortBy le l ↔ z ∈ l := by
  induction l with
  | nil => simp [sortBy]
  | cons y ys ih =>
    unfold sortBy
    rw [mem_insertBy]
    simp [ih]

/-- Inserting into a sorted list keeps it sorted, for a total transitive
comparison. -/
theorem pairwise_insertBy {α : Type} (le : α → α → Bool)
    (htot : ∀ a b, le a b = true ∨ le b a = true)
    (htrans : ∀ a b c, le a b = true → le b c = true → le a c = true)
    (x : α) (l : List α) (hl : l.Pairwise (fun a b => le a b = true)) :
    (insertBy le x l).Pairwise (fun a b => le a b = true) := by
  induction l with
  | nil => simp [insertBy]
  | cons y ys ih =>
    unfold insertBy
    rcases List.pairwise_cons.mp hl with ⟨hy, hys⟩
    split_ifs with hxy
    · refine List.pairwise_cons.mpr ⟨?_, hl⟩
      intro z hz
      rcases List.mem_cons.mp hz with rfl | hz
      · exact hxy
      · exact htrans x y z hxy (hy z hz)
    · refine List.pairwise_cons.mpr ⟨?_, ih hys⟩
      intro z hz
      rcases (mem_insertBy le x z ys).mp hz with hzx | hz
      · subst hzx
        rcases htot z y with h | h
        · exact absurd h hxy
        · exact h
      · exact hy z hz

/-- The insertion sort is sorted, for a total transitive comparison. -/
theorem pairwise_sortBy {α : Type} (le : α → α → Bool)
    (htot : ∀ a b, le a b = true ∨ le b a = true)
    (htrans : ∀ a b c, le a b = true → le b c = true → le a c = true)
    (l : List α) : (sortBy le l).Pairwise (fun a b => le a b = true) := by
  induction l with
  | nil => simp [sortBy]
  | cons y ys ih => exact pairwise_insertBy le htot htrans y _ ih

/-- C3.  With duplicate-free legs, the fused dict assigns exactly the
specification's score to every product — `0.7 × semantic_score`, `+0.3`
for the predicate leg, both for products in both legs, absent otherwise —
and the ranked output is the fused entries sorted by score descending,
truncated to the limit. -/
theorem claim3_hybrid_fusion (sem : List SemEntry) (trad : List ℕ) (L : ℕ)
    (hsem : (sem.map (fun r => r.productId)).Nodup) (htrad : trad.Nodup) :
    (∀ pid, dlookup pid (combineTraditional (combineSemantic sem) trad)
        = fusedScoreSpec sem trad pid)
    ∧ (combineAndRank sem trad L).Pairwise (fun a b => b.2 ≤ a.2)
    ∧ combineAndRank sem trad L
        = (sortBy (fun a b => decide (b.2 ≤ a.2))
            (combineTraditional (combineSemantic sem) trad)).take L := by
  refine ⟨?_, ?_, rfl⟩
  · intro pid
    unfold combineTraditional combineSemantic fusedScoreSpec
    rw [dlookup_tradFold _ _ _ htrad, dlookup_semFold _ _ _ hsem]
    cases hf : sem.find? (fun r => r.productId = pid) with
    | some r =>
      by_cases hc : trad.contains pid = true
      · simp only [hf, hc, if_true]
        rw [show ((r.similarityScore.getD (1/2)) * (7/10) + 3/10 : ℚ)
            = (7/10) * (r.similarityScore.getD (1/2)) + 3/10 from by ring]
      · simp only [hf, Bool.not_eq_true] at *
        simp only [hc, Bool.false_eq_true, if_false]
        rw [mul_comm]
    | none =>
      by_cases hc : trad.contains pid = true
      · rw [if_pos hc]
        simp only [hf, hc]
        rfl
      · simp only [Bool.not_eq_true] at hc
        rw [if_neg (by rw [hc]; simp)]
        simp only [hf, hc]
        rfl
  · have hp := pairwise_sortBy (fun a b : ℕ × ℚ => decide (b.2 ≤ a.2))
      (fun a b => by
        rcases le_total b.2 a.2 with h | h
        · exact Or.inl (decide_eq_true h)
        · exact Or.inr (decide_eq_true h))
      (fun a b c hab hbc =>
        decide_eq_true (le_trans (of_decide_eq_true hbc) (of_decide_eq_true hab)))
      (combineTraditional (combineSemantic sem) trad)
    have hsub := List.Pairwise.sublist
      (List.take_sublist L (sortBy (fun a b : ℕ × ℚ => decide (b.2 ≤ a.2))
        (combineTraditional (combineSemantic sem) trad))) hp
    exact hsub.imp (fun h => of_decide_eq_true h)

/-- C3 (witness): a two-product semantic leg and an overlapping one-product
predicate leg, fused and ranked. -/
theorem claim3_witness :
    (([⟨1, some (9/10)⟩, ⟨2, some (1/2)⟩] : List SemEntry).map
        (fun r => r.productId)).Nodup
    ∧ ([2, 3] : List ℕ).Nodup
    ∧ ∀ pid,
        dlookup pid (combineTraditional
          (combineSemantic [⟨1, some (9/10)⟩, ⟨2, some (1/2)⟩]) [2, 3])
          = fusedScoreSpec [⟨1, some (9/10)⟩, ⟨2, some (1/2)⟩] [2, 3] pid :=
  ⟨by decide, by decide,
    (claim3_hybrid_fusion [⟨1, some (9/10)⟩, ⟨2, some (1/2)⟩] [2, 3] 10
      (by decide) (by decide)).1⟩

/-- Options contributed by an offer without an `emi_amount` are never of
payment type `emi` — the `no_cost_emi` branch of `calculate_total_savings`
requires both `emi_months` and `emi_amount`. -/
theorem offerOptions_not_emi (price mrp base : ℚ) (o : OfferData)
    (hoe : o.emiAmount = none) :
    ∀ opt ∈ offerOptions price mrp base o, opt.paymentType ≠ "emi" := by
  intro opt hopt
  unfold offerOptions at hopt
  by_cases h1 : o.offerType = "instant_discount"
  · rw [if_pos h1] at hopt
    dsimp only at hopt
    rcases List.mem_singleton.mp hopt with rfl
    dsimp only
    decide
  · rw [if_neg h1] at hopt
    by_cases h2 : o.offerType = "cashback"
    · rw [if_pos h2] at hopt
      dsimp only at hopt
      rcases List.mem_singleton.mp hopt with rfl
      dsimp only
      decide
    · rw [if_neg h2] at hopt
      by_cases h3 : o.offerType = "no_cost_emi"
      · rw [if_pos h3] at hopt
        rw [hoe] at hopt
        cases o.emiMonths <;> simp at hopt
      · rw [if_neg h3] at hopt
        simp at hopt

/-- The per-offer accumulation of `calculate_total_savings` yields no
`emi`-typed option when no offer has an `emi_amount`. -/
theorem foldr_offerOptions_not_emi (price mrp base : ℚ)
    (offers : List OfferData) (hall : ∀ o ∈ offers, o.emiAmount = none) :
    ∀ opt ∈ offers.foldr
        (fun o acc => offerOptions price mrp base o ++ acc) [],
      opt.paymentType ≠ "emi" := by
  induction offers with
  | nil =>
    intro opt h
    simp at h
  | cons o rest ih =>
    intro opt hopt
    rw [List.foldr_cons] at hopt
    rcases List.mem_append.mp hopt with hl | hr
    · exact offerOptions_not_emi price mrp base o
        (hall o (List.mem_cons_self o rest)) opt hl
    · exact ih (fun x hx => hall x (List.mem_cons_of_mem o hx)) opt hr

/-- Every payment option built from offers without `emi_amount` has a
non-`emi` payment type (the baseline full-price option included). -/
theorem calcSavings_not_emi (price mrp : ℚ) (offers : List OfferData)
    (hall : ∀ o ∈ offers, o.emiAmount = none) :
    ∀ opt ∈ calculateTotalSavings price mrp offers,
      opt.paymentType ≠ "emi" := by
  intro opt hopt
  unfold calculateTotalSavings at hopt
  rw [mem_sortBy] at hopt
  rcases List.mem_cons.mp hopt with rfl | hopt
  · dsimp only
    decide
  · exact foldr_offerOptions_not_emi price mrp _ offers hall opt hopt

/-- An iteration of the selection loop over a non-`emi` option never
changes the best-EMI slot. -/
theorem pickBestsStep_emi (b : BestRecs) (o : PaymentOption)
    (ho : o.paymentType ≠ "emi") :
    (pickBestsStep b o).bestEmi = b.bestEmi := by
  unfold pickBestsStep
  by_cases h1 : o.paymentType = "one_time"
      ∧ containsSub o.optionName "Instant Discount"
  · rw [if_pos h1]
  · rw [if_neg h1]
    by_cases h2 : o.paymentType = "cashback"
    · rw [if_pos h2]
    · rw [if_neg h2, if_neg ho]

/-- If no option has payment type `emi`, the selection loop leaves the
best-EMI slot empty. -/
theorem pickBests_emi_none (options : List PaymentOption)
    (hopt : ∀ o ∈ options, o.paymentType ≠ "emi") :
    (pickBests options).bestEmi = none := by
  unfold pickBests
  suffices h : ∀ b : BestRecs, b.bestEmi = none →
      (options.foldl pickBestsStep b).bestEmi = none by
    exact h _ rfl
  induction options with
  | nil => intro b hb; exact hb
  | cons o rest ih =>
    intro b hb
    rw [List.foldl_cons]
    refine ih (fun x hx => hopt x (List.mem_cons_of_mem o hx)) _ ?_
    rw [pickBestsStep_emi b o (hopt o (List.mem_cons_self o rest))]
    exact hb

/-- The formatted offers of `get_card_offers` never carry an
`emi_amount`. -/
theorem getCardOffers_emiAmount (p : ProductRow) (rows : List CardOfferRow) :
    ∀ o ∈ getCardOffers (some p) rows, o.emiAmount = none := by
  intro o ho
  unfold getCardOffers at ho
  rcases List.mem_map.mp ho with ⟨row, _, rfl⟩
  rfl

/-- C7 (counterexample).  A product with a live 6-month no-cost-EMI card
offer: the no-cost-EMI schedules exist (four of them), yet `best_emi` is
`None` both in `compare_payment_options` and in the purchase plan — the
claimed fallback to the first no-cost-EMI schedule does not happen. -/
theorem claim7_counterexample :
    (comparePaymentOptions (some sampleProductRow) [sampleNoCostOffer]).recommendations.bestEmi = none
    ∧ (comparePaymentOptions (some sampleProductRow) [sampleNoCostOffer]).noCostEmiPlans ≠ []
    ∧ (createPurchasePlan (some sampleProductRow) [sampleNoCostOffer] "").bestEmi = none := by
  have h1 : (comparePaymentOptions (some sampleProductRow) [sampleNoCostOffer]).recommendations.bestEmi = none := by
    simp only [comparePaymentOptions]
    exact pickBests_emi_none _
      (calcSavings_not_emi _ _ _ (getCardOffers_emiAmount _ _))
  refine ⟨h1, ?_, ?_⟩
  · simp [comparePaymentOptions, calculateNoCostEmi, noCostTenures]
  · unfold createPurchasePlan
    rw [if_neg (by simp [comparePaymentOptions])]
    exact h1

/-- C7 (amended).  `best_emi` is the minimum-monthly-payment option among
payment options of type `emi`; but `get_card_offers` never populates
`emi_amount`, so no such option is ever generated and `best_emi` is always
`None` — both in `compare_payment_options` and, passed through unchanged,
in `create_purchase_plan`.  No fallback to the no-cost-EMI schedules
occurs, even though those schedules always exist. -/
theorem claim7_best_emi (p : ProductRow) (offerRows : List CardOfferRow)
    (aiRec : String) :
    (comparePaymentOptions (some p) offerRows).recommendations.bestEmi = none
    ∧ (comparePaymentOptions (some p) offerRows).noCostEmiPlans ≠ []
    ∧ (createPurchasePlan (some p) offerRows aiRec).bestEmi
        = (comparePaymentOptions (some p) offerRows).recommendations.bestEmi := by
  have h1 : (comparePaymentOptions (some p) offerRows).recommendations.bestEmi = none := by
    simp only [comparePaymentOptions]
    exact pickBests_emi_none _
      (calcSavings_not_emi _ _ _ (getCardOffers_emiAmount _ _))
  refine ⟨h1, ?_, ?_⟩
  · simp [comparePaymentOptions, calculateNoCostEmi, noCostTenures]
  · unfold createPurchasePlan
    rw [if_neg (by simp [comparePaymentOptions])]

/-- C1.  Whenever retrieval succeeds with at least one product, the
orchestrated response is successful with no error field — for every
possible combination of review, price, comparison and buy-plan outcomes,
timeouts and failures included. -/
theorem claim1_always_success (query : String) (search : SearchResultR)
    (topN : ℕ) (reviewResults : List (ℕ × ReviewResultR))
    (priceResults : List (ℕ × PriceResultR)) (comparison : Option CompResultR)
    (buyplan : Option BuyPlanResultR) (rng : ℕ → ℕ → ℚ)
    (dateLabel : ℕ → String) (executionTime : ℚ) (timestamp : String)
    (modelName : String) (hs : search.success = true)
    (hp : search.products ≠ []) :
    (orchestrateRecommendation query search topN reviewResults priceResults
      comparison buyplan rng dateLabel executionTime timestamp
      modelName).success = true
    ∧ (orchestrateRecommendation query search topN reviewResults priceResults
      comparison buyplan rng dateLabel executionTime timestamp
      modelName).error = none := by
  unfold orchestrateRecommendation
  rw [if_neg ?hcond]
  case hcond =>
    rintro (h | h)
    · rw [hs] at h
      cases h
    · exact hp h
  exact ⟨rfl, rfl⟩

/-- C1 (witness): a concrete successful two-product search with every
analysis slot missing (all four agents timed out) still yields a
successful response. -/
theorem claim1_witness :
    sampleSearch.success = true
    ∧ sampleSearch.products ≠ []
    ∧ (orchestrateRecommendation "wireless phone" sampleSearch 2 [] [] none
        none rngZero dateLabel0 1 "2026-10-12T00:00:00" "llama3.1").success = true
    ∧ (orchestrateRecommendation "wireless phone" sampleSearch 2 [] [] none
        none rngZero dateLabel0 1 "2026-10-12T00:00:00" "llama3.1").error = none := by
  refine ⟨rfl, by decide, ?_, ?_⟩
  · exact (claim1_always_success "wireless phone" sampleSearch 2 [] [] none
      none rngZero dateLabel0 1 "2026-10-12T00:00:00" "llama3.1" rfl (by decide)).1
  · exact (claim1_always_success "wireless phone" sampleSearch 2 [] [] none
      none rngZero dateLabel0 1 "2026-10-12T00:00:00" "llama3.1" rfl (by decide)).2

/-- The formatting of the enrichment loop preserves the product IDs in
order. -/
theorem formatAux_ids (reviewResults : List (ℕ × ReviewResultR))
    (priceResults : List (ℕ × PriceResultR)) (rng : ℕ → ℕ → ℚ)
    (dateLabel : ℕ → String) :
    ∀ (prods : List SearchProduct) (i : ℕ),
      (formatAux (i + 1)
          (enrichAux reviewResults priceResults rng dateLabel i prods)).map
        (fun fp => fp.id) = prods.map (fun p => p.id) := by
  intro prods
  induction prods with
  | nil => intro i; rfl
  | cons p ps ih =>
    intro i
    simp only [enrichAux, formatAux, List.map_cons]
    rw [ih (i + 1)]
    rfl

/-- The formatting of the enrichment loop numbers ranks consecutively from
the starting index. -/
theorem formatAux_ranks (reviewResults : List (ℕ × ReviewResultR))
    (priceResults : List (ℕ × PriceResultR)) (rng : ℕ → ℕ → ℚ)
    (dateLabel : ℕ → String) :
    ∀ (prods : List SearchProduct) (i : ℕ),
      (formatAux (i + 1)
          (enrichAux reviewResults priceResults rng dateLabel i prods)).map
        (fun fp => fp.rank) = List.range' (i + 1) prods.length := by
  intro prods
  induction prods with
  | nil => intro i; rfl
  | cons p ps ih =>
    intro i
    simp only [enrichAux, formatAux, List.map_cons, List.length_cons,
      List.range']
    rw [ih (i + 1)]
    rfl

/-- Every product the loops emit equals the per-product pipeline applied
to its own original product at its own rank. -/
theorem formatAux_attach (reviewResults : List (ℕ × ReviewResultR))
    (priceResults : List (ℕ × PriceResultR)) (rng : ℕ → ℕ → ℚ)
    (dateLabel : ℕ → String) :
    ∀ (prods : List SearchProduct) (i : ℕ),
      ∀ fp ∈ formatAux (i + 1)
          (enrichAux reviewResults priceResults rng dateLabel i prods),
        fp = formatOne reviewResults priceResults rng dateLabel (fp.rank - 1)
              fp.original
        ∧ fp.id = fp.original.id := by
  intro prods
  induction prods with
  | nil =>
    intro i fp hfp
    simp [enrichAux, formatAux] at hfp
  | cons p ps ih =>
    intro i fp hfp
    simp only [enrichAux, formatAux] at hfp
    rcases List.mem_cons.mp hfp with rfl | hfp
    · exact ⟨rfl, rfl⟩
    · exact ih (i + 1) fp hfp

/-- C2.  The response's product list carries exactly the retrieved
products' IDs in retrieval order, ranks them 1, 2, …, and every product's
review and price blocks are computed from the analysis maps looked up at
that product's own ID — so no analysis outcome can reorder, drop or
duplicate products, and attachment is by ID rather than completion
order. -/
theorem claim2_order_preserved (query : String) (search : SearchResultR)
    (topN : ℕ) (reviewResults : List (ℕ × ReviewResultR))
    (priceResults : List (ℕ × PriceResultR)) (comparison : Option CompResultR)
    (buyplan : Option BuyPlanResultR) (rng : ℕ → ℕ → ℚ)
    (dateLabel : ℕ → String) (executionTime : ℚ) (timestamp : String)
    (modelName : String) (hs : search.success = true)
    (hp : search.products ≠ []) :
    (orchestrateRecommendation query search topN reviewResults priceResults
        comparison buyplan rng dateLabel executionTime timestamp
        modelName).products.map (fun fp => fp.id)
      = (search.products.take topN).map (fun p => p.id)
    ∧ (orchestrateRecommendation query search topN reviewResults priceResults
        comparison buyplan rng dateLabel executionTime timestamp
        modelName).products.map (fun fp => fp.rank)
      = List.range' 1 (search.products.take topN).length
    ∧ ∀ fp ∈ (orchestrateRecommendation query search topN reviewResults
        priceResults comparison buyplan rng dateLabel executionTime timestamp
        modelName).products,
        fp = formatOne reviewResults priceResults rng dateLabel (fp.rank - 1)
              fp.original
        ∧ fp.id = fp.original.id := by
  have hcond : ¬ (search.success = false ∨ search.products = []) := by
    rintro (h | h)
    · rw [hs] at h
      cases h
    · exact hp h
  unfold orchestrateRecommendation
  rw [if_neg hcond]
  dsimp only
  refine ⟨?_, ?_, ?_⟩
  · exact formatAux_ids reviewResults priceResults rng dateLabel
      (search.products.take topN) 0
  · exact formatAux_ranks reviewResults priceResults rng dateLabel
      (search.products.take topN) 0
  · exact formatAux_attach reviewResults priceResults rng dateLabel
      (search.products.take topN) 0

/-- C2 (witness): the concrete two-product search of C1's witness, with
empty analysis maps. -/
theorem claim2_witness :
    sampleSearch.success = true
    ∧ sampleSearch.products ≠ []
    ∧ (orchestrateRecommendation "wireless phone" sampleSearch 2 [] [] none
        none rngZero dateLabel0 1 "2026-10-12T00:00:00" "llama3.1").products.map
        (fun fp => fp.id)
      = (sampleSearch.products.take 2).map (fun p => p.id) :=
  ⟨rfl, by decide,
    (claim2_order_preserved "wireless phone" sampleSearch 2 [] [] none none
      rngZero dateLabel0 1 "2026-10-12T00:00:00" "llama3.1" rfl (by decide)).1⟩

/-- The price-enrichment of one product is independent of the random
stream whenever a real history or a prepared chart is present, or the
price is non-positive (the mock-chart branch is the only consumer of
randomness). -/
theorem enrichPrice_rng_eq (p : SearchProduct) (pd : PriceResultR)
    (r1 r2 : ℕ → ℚ) (dateLabel : ℕ → String)
    (h : pd.history ≠ []
      ∨ (pd.priceData.bind (fun t => t.chartData)).isSome = true
      ∨ ¬ (0 < p.price)) :
    enrichPrice p pd r1 dateLabel = enrichPrice p pd r2 dateLabel := by
  unfold enrichPrice
  dsimp only
  by_cases hh : pd.history ≠ []
  · rw [if_pos hh, if_pos hh]
  · rw [if_neg hh, if_neg hh]
    by_cases he : (pd.priceData.bind (fun t => t.chartData)).isSome = true
    · rw [if_pos he, if_pos he]
    · rw [if_neg he, if_neg he]
      have hp : ¬ (0 < p.price) := by
        rcases h with h | h | h
        · exact absurd h hh
        · exact absurd h he
        · exact h
      rw [if_neg hp, if_neg hp]

/-- The enrichment loop is independent of the random stream when every
product satisfies the mock-free condition. -/
theorem enrichAux_rng_eq (reviewResults : List (ℕ × ReviewResultR))
    (priceResults : List (ℕ × PriceResultR)) (r1 r2 : ℕ → ℕ → ℚ)
    (dateLabel : ℕ → String) :
    ∀ (prods : List SearchProduct) (i : ℕ),
      (∀ p ∈ prods,
        ((dlookup p.id priceResults).getD emptyPriceResult).history ≠ []
        ∨ ((((dlookup p.id priceResults).getD emptyPriceResult).priceData.bind
            (fun t => t.chartData)).isSome = true)
        ∨ ¬ (0 < p.price)) →
      enrichAux reviewResults priceResults r1 dateLabel i prods
        = enrichAux reviewResults priceResults r2 dateLabel i prods := by
  intro prods
  induction prods with
  | nil => intro i _; rfl
  | cons p ps ih =>
    intro i hcond
    simp only [enrichAux]
    rw [ih (i + 1) (fun x hx => hcond x (List.mem_cons_of_mem p hx)),
      enrichPrice_rng_eq p _ (r1 i) (r2 i) dateLabel
        (hcond p (List.mem_cons_self p ps))]

/-- A product with no price data lands in the mock-chart branch of the
enrichment. -/
theorem enrichPrice_mock (rng : ℕ → ℚ) :
    (enrichPrice sampleProduct1 emptyPriceResult rng dateLabel0).chartData
      = some (mockChart 100 rng dateLabel0) := by
  unfold enrichPrice
  dsimp only
  rw [if_neg (by simp [emptyPriceResult]), if_neg (by simp [emptyPriceResult]),
    if_pos (show (0 : ℚ) < sampleProduct1.price by norm_num [sampleProduct1])]
  rfl

/-- The head of the mock chart's series is the rounded base price at the
day-30 draw. -/
theorem mockChart_head (rng : ℕ → ℚ) :
    (mockChart 100 rng dateLabel0).data.head?
      = some (round2 (100 * (1 + rng 30))) := by
  unfold mockChart
  dsimp only
  rw [List.head?_map, List.head?_map, List.range_succ_eq_map]
  rfl

/-- C8 (counterexample).  Two orchestrations with identical inputs (warm
caches modelled as identical review/comparison data) differ in the
price chart of a product that has no price history: the mock chart is
rebuilt from fresh random draws on each run. -/
theorem claim8_counterexample :
    (orchestrateRecommendation "phone" sampleSearchOne 1 [] [] none none
        rngZero dateLabel0 1 "2026-10-12T00:00:00" "llama3.1").products.map
        (fun fp => fp.priceTracking.chartData)
    ≠ (orchestrateRecommendation "phone" sampleSearchOne 1 [] [] none none
        rngHigh dateLabel0 1 "2026-10-12T00:00:00" "llama3.1").products.map
        (fun fp => fp.priceTracking.chartData) := by
  have hrun : ∀ rng : ℕ → ℕ → ℚ,
      (orchestrateRecommendation "phone" sampleSearchOne 1 [] [] none none
        rng dateLabel0 1 "2026-10-12T00:00:00" "llama3.1").products.map
        (fun fp => fp.priceTracking.chartData)
      = [some (mockChart 100 (rng 0) dateLabel0)] := by
    intro rng
    unfold orchestrateRecommendation
    rw [if_neg (by rintro (h | h) <;> simp [sampleSearchOne] at h)]
    dsimp only
    exact congrArg (fun c => [c]) (enrichPrice_mock (rng 0))
  intro heq
  rw [hrun rngZero, hrun rngHigh] at heq
  have heq2 : mockChart 100 (rngZero 0) dateLabel0
      = mockChart 100 (rngHigh 0) dateLabel0 := by
    simpa using heq
  have h3 : (mockChart 100 (rngZero 0) dateLabel0).data.head?
      = (mockChart 100 (rngHigh 0) dateLabel0).data.head? := by
    rw [heq2]
  rw [mockChart_head, mockChart_head] at h3
  have hz : round2 ((100 : ℚ) * (1 + rngZero 0 30)) = 100 := by
    have harg : (100 : ℚ) * (1 + rngZero 0 30) = 100 := by
      norm_num [rngZero]
    rw [harg, round2_eq 100 10000 (by norm_num) (by norm_num)]
    norm_num
  have hh5 : round2 ((100 : ℚ) * (1 + rngHigh 0 30)) = 105 := by
    have harg : (100 : ℚ) * (1 + rngHigh 0 30) = 105 := by
      norm_num [rngHigh]
    rw [harg, round2_eq 105 10500 (by norm_num) (by norm_num)]
    norm_num
  rw [hz, hh5] at h3
  have h4 := Option.some.inj h3
  norm_num at h4

/-- C8 (amended).  Two orchestrations over identical inputs (retrieval
result, warm review results, price results, comparison and buy-plan
outcomes) produce the identical response — product ordering and every
analysis block included — provided every retrieved product's price result
carries a real history or a prepared chart, or has a non-positive price.
For a product in the mock-chart branch, the chart is rebuilt from fresh
random draws on each run, so only that synthetic chart data may differ;
the product ordering is identical in all cases. -/
theorem claim8_warm_cache_determinism (query : String) (search : SearchResultR)
    (topN : ℕ) (reviewResults : List (ℕ × ReviewResultR))
    (priceResults : List (ℕ × PriceResultR)) (comparison : Option CompResultR)
    (buyplan : Option BuyPlanResultR) (rng1 rng2 : ℕ → ℕ → ℚ)
    (dateLabel : ℕ → String) (executionTime : ℚ) (timestamp : String)
    (modelName : String)
    (hcond : ∀ p ∈ search.products.take topN,
      ((dlookup p.id priceResults).getD emptyPriceResult).history ≠ []
      ∨ ((((dlookup p.id priceResults).getD emptyPriceResult).priceData.bind
          (fun t => t.chartData)).isSome = true)
      ∨ ¬ (0 < p.price)) :
    orchestrateRecommendation query search topN reviewResults priceResults
        comparison buyplan rng1 dateLabel executionTime timestamp modelName
      = orchestrateRecommendation query search topN reviewResults priceResults
        comparison buyplan rng2 dateLabel executionTime timestamp modelName
    ∧ (orchestrateRecommendation query search topN reviewResults priceResults
        comparison buyplan rng1 dateLabel executionTime timestamp
        modelName).products.map (fun fp => fp.id)
      = (orchestrateRecommendation query search topN reviewResults priceResults
        comparison buyplan rng2 dateLabel executionTime timestamp
        modelName).products.map (fun fp => fp.id) := by
  have heq : orchestrateRecommendation query search topN reviewResults
      priceResults comparison buyplan rng1 dateLabel executionTime timestamp
      modelName
      = orchestrateRecommendation query search topN reviewResults priceResults
        comparison buyplan rng2 dateLabel executionTime timestamp modelName := by
    unfold orchestrateRecommendation
    by_cases hfail : search.success = false ∨ search.products = []
    · rw [if_pos hfail, if_pos hfail]
    · rw [if_neg hfail, if_neg hfail]
      dsimp only
      rw [show enrichProducts (search.products.take topN) reviewResults
            priceResults rng1 dateLabel
          = enrichProducts (search.products.take topN) reviewResults
            priceResults rng2 dateLabel from
        enrichAux_rng_eq reviewResults priceResults rng1 rng2 dateLabel
          (search.products.take topN) 0 hcond]
  exact ⟨heq, by rw [heq]⟩

/-- C8 (witness): one product whose price result carries a real two-point
history; the two runs coincide exactly. -/
theorem claim8_witness :
    (∀ p ∈ sampleSearchOne.products.take 1,
      ((dlookup p.id [(1, samplePriceResult)]).getD emptyPriceResult).history ≠ []
      ∨ ((((dlookup p.id [(1, samplePriceResult)]).getD
          emptyPriceResult).priceData.bind
          (fun t => t.chartData)).isSome = true)
      ∨ ¬ (0 < p.price))
    ∧ orchestrateRecommendation "phone" sampleSearchOne 1 []
        [(1, samplePriceResult)] none none rngZero dateLabel0 1
        "2026-10-12T00:00:00" "llama3.1"
      = orchestrateRecommendation "phone" sampleSearchOne 1 []
        [(1, samplePriceResult)] none none rngHigh dateLabel0 1
        "2026-10-12T00:00:00" "llama3.1" := by
  have hcond : ∀ p ∈ sampleSearchOne.products.take 1,
      ((dlookup p.id [(1, samplePriceResult)]).getD emptyPriceResult).history ≠ []
      ∨ ((((dlookup p.id [(1, samplePriceResult)]).getD
          emptyPriceResult).priceData.bind
          (fun t => t.chartData)).isSome = true)
      ∨ ¬ (0 < p.price) := by
    intro p hp
    rcases List.mem_singleton.mp (by simpa [sampleSearchOne] using hp) with rfl
    left
    decide
  exact ⟨hcond,
    (claim8_warm_cache_determinism "phone" sampleSearchOne 1 []
      [(1, samplePriceResult)] none none rngZero rngHigh dateLabel0 1
      "2026-10-12T00:00:00" "llama3.1" hcond).1⟩

end ProductRec
